import Mathlib

/-!
Verification of the admission-control / quota engine of `astrodiffusion_ui`
(`src/ratelimits.py`, with its caller `src/app.py`).

Shallow embedding conventions:
* Python `float` values (timestamps, seconds, costs) are modelled by `ℚ`,
  treating float arithmetic as exact rational arithmetic.
* Bucket request counts start at 0 and are only incremented, so they are `ℕ`.
* `time.time()` is sampled afresh inside each bucket helper in the Python
  source; since both public operations run in one short locked critical
  section, the model passes a single `now : ℚ` per operation (no time
  passes inside the critical section).
* Python dict mutation is modelled by explicit state passing: each bucket
  accessor returns the bucket it yields together with the updated store.
* The caller-owned session dict holds dynamically typed values; these are
  modelled by `PyVal`, and `int()` / `float()` conversions by partial
  functions into `Option` (a `none` models the raised exception).
-/

namespace AstroRL

/-- A dynamically typed value that the caller may put in the session dict.
`int()` / `float()` conversions are modelled on these; a non-numeric string
models a value on which Python's conversion raises. -/
inductive PyVal where
  | int (n : ℤ)
  | float (q : ℚ)
  | str (s : String)
deriving DecidableEq

/-- Truncation toward zero, the behaviour of Python `int()` on a float. -/
def ratTrunc (q : ℚ) : ℤ := if 0 ≤ q then ⌊q⌋ else -⌊-q⌋

/-- Decimal digit value of a character, if any. -/
def digitVal? (ch : Char) : Option ℕ :=
  if '0' ≤ ch ∧ ch ≤ '9' then some (ch.toNat - '0'.toNat) else none

/-- Parse a non-empty all-digit character list as a natural number. -/
def charsToNat? (l : List Char) : Option ℕ :=
  l.foldl
    (fun acc ch =>
      match acc, digitVal? ch with
      | some n, some d => some (n * 10 + d)
      | _, _ => none)
    (if l.isEmpty then none else some 0)

/-- Decimal integer parsing of a string (an optional leading minus then
digits), standing in for Python `int()` on strings: numeric strings
convert, anything else fails. -/
def strToInt? (s : String) : Option ℤ :=
  match s.data with
  | '-' :: rest => (charsToNat? rest).map (fun n => -(n : ℤ))
  | l => (charsToNat? l).map (fun n => (n : ℤ))

/-- Python `int(v)`: `none` models the `ValueError`/`TypeError` raised on a
non-numeric value. -/
def pyInt : PyVal → Option ℤ
  | .int n => some n
  | .float q => some (ratTrunc q)
  | .str s => strToInt? s

/-- Python `float(v)`: `none` models the exception raised on a non-numeric
value. String parsing is modelled conservatively by integer-string parsing;
the properties below only need that some strings fail to convert. -/
def pyFloat : PyVal → Option ℚ
  | .int n => some (n : ℚ)
  | .float q => some q
  | .str s => (strToInt? s).map (fun n => (n : ℚ))

/-- The caller's mutable session dict, restricted to the two keys the
limiter reads or writes (`"count"` and `"started_at"`); `none` models an
absent key. Other keys (such as `"session_id"`) are never touched by the
limiter and are omitted. -/
structure SessionDict where
  count : Option PyVal
  started_at : Option PyVal
deriving DecidableEq

/-- A well-typed session dict: an integer count and an optional float
start timestamp (`none` = key absent). -/
def mkSession (c : ℤ) (t : Option ℚ) : SessionDict :=
  ⟨some (PyVal.int c), Option.map PyVal.float t⟩

/-- A count-only bucket `{count, reset_at}` (per-ip hourly, global hourly,
global monthly-requests). -/
structure CountBucket where
  count : ℕ
  reset_at : ℚ
deriving DecidableEq

/-- The per-ip daily bucket `{count, active_sec, reset_at}`. -/
structure IpDayBucket where
  count : ℕ
  active_sec : ℚ
  reset_at : ℚ
deriving DecidableEq

/-- The global daily bucket `{count, active_sec, cost, reset_at}`. -/
structure GlobalDayBucket where
  count : ℕ
  active_sec : ℚ
  cost : ℚ
  reset_at : ℚ
deriving DecidableEq

/-- The global monthly cost bucket `{cost, reset_at}`. -/
structure CostBucket where
  cost : ℚ
  reset_at : ℚ
deriving DecidableEq

/-- The limiter's bucket store: the two per-ip dict-of-bucket maps and the
four global singleton buckets of `RateLimiter.__init__`. -/
@[ext] structure Store where
  ip_hour : String → Option CountBucket
  ip_day : String → Option IpDayBucket
  global_hour : CountBucket
  global_day : GlobalDayBucket
  global_month_req : CountBucket
  global_month_cost : CostBucket

/-- The configured limits, as read from the environment in
`RateLimiter.__init__`. Request caps are naturals, durations and money are
rationals. -/
structure Config where
  per_session_max_req : ℕ
  per_session_max_age : ℚ
  per_ip_max_req_hour : ℕ
  per_ip_max_req_day : ℕ
  per_ip_max_active_sec_day : ℕ
  global_max_req_hour : ℕ
  global_max_req_day : ℕ
  global_max_req_month : ℕ
  global_max_active_sec_day : ℕ
  cost_per_sec : ℚ
  daily_cost_limit : ℚ
  monthly_cost_limit : ℚ
deriving DecidableEq

/-- The documented default configuration (`0.0005 = 1/2000`). -/
def defaultConfig : Config where
  per_session_max_req := 5
  per_session_max_age := 15 * 60
  per_ip_max_req_hour := 200
  per_ip_max_req_day := 1000
  per_ip_max_active_sec_day := 60 * 60
  global_max_req_hour := 50
  global_max_req_day := 100
  global_max_req_month := 500
  global_max_active_sec_day := 6 * 60 * 60
  cost_per_sec := 1 / 2000
  daily_cost_limit := 5
  monthly_cost_limit := 10

/-- The store built by `RateLimiter.__init__` at time `now`: empty per-ip
maps and zeroed global buckets with full windows ahead. -/
def initStore (now : ℚ) : Store where
  ip_hour := fun _ => none
  ip_day := fun _ => none
  global_hour := ⟨0, now + 3600⟩
  global_day := ⟨0, 0, 0, now + 86400⟩
  global_month_req := ⟨0, now + 30 * 86400⟩
  global_month_cost := ⟨0, now + 30 * 86400⟩

/-- Pointwise update of a dict keyed by ip strings. -/
def updMap {α : Type} (m : String → Option α) (k : String) (v : α) :
    String → Option α :=
  fun k' => if k' = k then some v else m k'

/-- `RateLimiter._fmt_wait`'s one-decimal rendering (`{:.1f}`), with
round-half-up standing in for float formatting. -/
def fmt1 (q : ℚ) : String :=
  let n : ℤ := ((q * 10) + 1 / 2).floor
  let sign := if n < 0 then "-" else ""
  let a := n.natAbs
  sign ++ toString (a / 10) ++ "." ++ toString (a % 10)

/-- `RateLimiter._fmt_wait`'s whole-second rendering (`{:.0f}`). -/
def fmt0 (q : ℚ) : String := toString ((q + 1 / 2).floor)

/-- `RateLimiter._fmt_wait`: clamp below at 0, then hours / minutes /
seconds by the 3600 / 60 thresholds. -/
def fmtWait (seconds : ℚ) : String :=
  let s := if seconds < 0 then 0 else seconds
  if s ≥ 3600 then fmt1 (s / 3600) ++ " hours"
  else if s ≥ 60 then fmt1 (s / 60) ++ " minutes"
  else fmt0 s ++ " seconds"

/-- Rendering of a float limit inside a message (Python interpolates the
float's repr; the model renders the rational canonically). -/
def fmtFloat (q : ℚ) : String := toString q

-- ----- the denial messages of `pre_check`, one per predicate -----

def sessionTimeMsg : String :=
  "session time cap reached. refresh the tab to start a new session."

def sessionCapMsg (n : ℕ) : String :=
  "session request cap reached (" ++ toString n ++
    "). refresh the tab to start a new session."

def ipHourlyMsg (cap : ℕ) (wait : String) : String :=
  "ip hourly cap " ++ toString cap ++ " reached. try again in " ++ wait

def ipDailyMsg (cap : ℕ) (wait : String) : String :=
  "ip daily cap " ++ toString cap ++ " reached. try again in " ++ wait

def ipDailyActiveMsg (cap : ℕ) (wait : String) : String :=
  "ip daily active time cap " ++ toString cap ++ " sec reached. try again in " ++ wait

def globalHourlyMsg (cap : ℕ) (wait : String) : String :=
  "global hourly cap " ++ toString cap ++ " reached. try again in " ++ wait

def globalDailyMsg (cap : ℕ) (wait : String) : String :=
  "global daily cap " ++ toString cap ++ " reached. try again in " ++ wait

def globalDailyActiveMsg (cap : ℕ) (wait : String) : String :=
  "global daily active time cap " ++ toString cap ++ " sec reached. try again in " ++ wait

def globalDailyCostMsg (cap : ℚ) (wait : String) : String :=
  "global daily cost cap " ++ fmtFloat cap ++ " reached. try again in " ++ wait

def globalMonthlyMsg (cap : ℕ) (wait : String) : String :=
  "global monthly cap " ++ toString cap ++ " reached. try again in " ++ wait

def globalMonthlyCostMsg (cap : ℚ) (wait : String) : String :=
  "global monthly cost cap " ++ fmtFloat cap ++ " reached. try again in " ++ wait

-- ----- the six lazy bucket accessors of `RateLimiter` -----

/-- `RateLimiter._get_ip_hour_bucket`: create or replace a fresh bucket if
missing or expired, else return the stored one unchanged. -/
def getIpHourBucket (st : Store) (now : ℚ) (ip : String) :
    CountBucket × Store :=
  match st.ip_hour ip with
  | some b =>
    if now ≥ b.reset_at then
      let b' : CountBucket := ⟨0, now + 3600⟩
      (b', { st with ip_hour := updMap st.ip_hour ip b' })
    else (b, st)
  | none =>
    let b' : CountBucket := ⟨0, now + 3600⟩
    (b', { st with ip_hour := updMap st.ip_hour ip b' })

/-- `RateLimiter._get_ip_day_bucket`. -/
def getIpDayBucket (st : Store) (now : ℚ) (ip : String) :
    IpDayBucket × Store :=
  match st.ip_day ip with
  | some b =>
    if now ≥ b.reset_at then
      let b' : IpDayBucket := ⟨0, 0, now + 86400⟩
      (b', { st with ip_day := updMap st.ip_day ip b' })
    else (b, st)
  | none =>
    let b' : IpDayBucket := ⟨0, 0, now + 86400⟩
    (b', { st with ip_day := updMap st.ip_day ip b' })

/-- `RateLimiter._get_global_hour`: zero the singleton in place when its
window has elapsed. -/
def getGlobalHour (st : Store) (now : ℚ) : CountBucket × Store :=
  if now ≥ st.global_hour.reset_at then
    let g : CountBucket := ⟨0, now + 3600⟩
    (g, { st with global_hour := g })
  else (st.global_hour, st)

/-- `RateLimiter._get_global_day`. -/
def getGlobalDay (st : Store) (now : ℚ) : GlobalDayBucket × Store :=
  if now ≥ st.global_day.reset_at then
    let g : GlobalDayBucket := ⟨0, 0, 0, now + 86400⟩
    (g, { st with global_day := g })
  else (st.global_day, st)

/-- `RateLimiter._get_global_month_req`. -/
def getGlobalMonthReq (st : Store) (now : ℚ) : CountBucket × Store :=
  if now ≥ st.global_month_req.reset_at then
    let g : CountBucket := ⟨0, now + 30 * 86400⟩
    (g, { st with global_month_req := g })
  else (st.global_month_req, st)

/-- `RateLimiter._get_global_month_cost`. -/
def getGlobalMonthCost (st : Store) (now : ℚ) : CostBucket × Store :=
  if now ≥ st.global_month_cost.reset_at then
    let g : CostBucket := ⟨0, now + 30 * 86400⟩
    (g, { st with global_month_cost := g })
  else (st.global_month_cost, st)

-- ----- `pre_check` -----

/-- The body of `RateLimiter.pre_check` after the session-dict values have
been converted: the ordered predicate chain, each bucket fetched lazily,
and the five count increments on success. Translated line by line from
`src/ratelimits.py`. -/
def preCheckChecked (cfg : Config) (st : Store) (now : ℚ) (ip : String)
    (sessCount : ℤ) (sessStarted : ℚ) : (Bool × Option String) × Store :=
  let sessionAge := now - sessStarted
  if sessionAge > cfg.per_session_max_age then
    ((false, some sessionTimeMsg), st)
  else if sessCount ≥ (cfg.per_session_max_req : ℤ) then
    ((false, some (sessionCapMsg cfg.per_session_max_req)), st)
  else
    let ph := getIpHourBucket st now ip
    if ph.1.count ≥ cfg.per_ip_max_req_hour then
      ((false, some (ipHourlyMsg cfg.per_ip_max_req_hour
        (fmtWait (ph.1.reset_at - now)))), ph.2)
    else
      let pd := getIpDayBucket ph.2 now ip
      if pd.1.count ≥ cfg.per_ip_max_req_day then
        ((false, some (ipDailyMsg cfg.per_ip_max_req_day
          (fmtWait (pd.1.reset_at - now)))), pd.2)
      else if pd.1.active_sec ≥ (cfg.per_ip_max_active_sec_day : ℚ) then
        ((false, some (ipDailyActiveMsg cfg.per_ip_max_active_sec_day
          (fmtWait (pd.1.reset_at - now)))), pd.2)
      else
        let gh := getGlobalHour pd.2 now
        if gh.1.count ≥ cfg.global_max_req_hour then
          ((false, some (globalHourlyMsg cfg.global_max_req_hour
            (fmtWait (gh.1.reset_at - now)))), gh.2)
        else
          let gd := getGlobalDay gh.2 now
          if gd.1.count ≥ cfg.global_max_req_day then
            ((false, some (globalDailyMsg cfg.global_max_req_day
              (fmtWait (gd.1.reset_at - now)))), gd.2)
          else if gd.1.active_sec ≥ (cfg.global_max_active_sec_day : ℚ) then
            ((false, some (globalDailyActiveMsg cfg.global_max_active_sec_day
              (fmtWait (gd.1.reset_at - now)))), gd.2)
          else if gd.1.cost ≥ cfg.daily_cost_limit then
            ((false, some (globalDailyCostMsg cfg.daily_cost_limit
              (fmtWait (gd.1.reset_at - now)))), gd.2)
          else
            let gmr := getGlobalMonthReq gd.2 now
            if gmr.1.count ≥ cfg.global_max_req_month then
              ((false, some (globalMonthlyMsg cfg.global_max_req_month
                (fmtWait (gmr.1.reset_at - now)))), gmr.2)
            else
              let gmc := getGlobalMonthCost gmr.2 now
              if gmc.1.cost ≥ cfg.monthly_cost_limit then
                ((false, some (globalMonthlyCostMsg cfg.monthly_cost_limit
                  (fmtWait (gmc.1.reset_at - now)))), gmc.2)
              else
                ((true, none),
                  { gmc.2 with
                    ip_hour := updMap gmc.2.ip_hour ip
                      ⟨ph.1.count + 1, ph.1.reset_at⟩
                    ip_day := updMap gmc.2.ip_day ip
                      ⟨pd.1.count + 1, pd.1.active_sec, pd.1.reset_at⟩
                    global_hour := ⟨gh.1.count + 1, gh.1.reset_at⟩
                    global_day := { gd.1 with count := gd.1.count + 1 }
                    global_month_req := ⟨gmr.1.count + 1, gmr.1.reset_at⟩ })

/-- `RateLimiter.pre_check`: convert the session-dict values (defaulting
absent keys to `count = 0`, `started_at = now`; a failed conversion is the
raised exception, modelled by `.error`), run the predicate chain, and on
success `setdefault` the session's `started_at` to `now`. Returns the
`(allowed, reason)` pair together with the updated store and session. -/
def pre_check (cfg : Config) (st : Store) (now : ℚ) (ip : String)
    (sess : SessionDict) :
    Except Unit ((Bool × Option String) × Store × SessionDict) :=
  match pyInt (sess.count.getD (PyVal.int 0)),
        pyFloat (sess.started_at.getD (PyVal.float now)) with
  | some sessCount, some sessStarted =>
    let r := preCheckChecked cfg st now ip sessCount sessStarted
    let sess' :=
      if r.1.1 then
        { sess with started_at := some (sess.started_at.getD (PyVal.float now)) }
      else sess
    .ok (r.1, r.2, sess')
  | _, _ => .error ()

-- ----- `post_consume` -----

/-- `RateLimiter.post_consume`: add the elapsed duration to the per-ip and
global daily active-seconds, and `duration * cost_per_sec` to the global
daily and monthly cost buckets, each bucket fetched lazily. -/
def post_consume (cfg : Config) (st : Store) (now : ℚ) (ip : String)
    (duration_sec : ℚ) : Store :=
  let cost := duration_sec * cfg.cost_per_sec
  let pd := getIpDayBucket st now ip
  let st2 := { pd.2 with
    ip_day := updMap pd.2.ip_day ip
      { pd.1 with active_sec := pd.1.active_sec + duration_sec } }
  let gd := getGlobalDay st2 now
  let st4 := { gd.2 with
    global_day := { gd.1 with
      active_sec := gd.1.active_sec + duration_sec
      cost := gd.1.cost + cost } }
  let gmc := getGlobalMonthCost st4 now
  { gmc.2 with
    global_month_cost := { gmc.1 with cost := gmc.1.cost + cost } }

-- ----- pure ("peek") views of the lazy accessors -----

/-- The bucket that `_get_ip_hour_bucket` yields at time `now`, as a pure
function of the store. -/
def peekIpHour (st : Store) (now : ℚ) (ip : String) : CountBucket :=
  match st.ip_hour ip with
  | some b => if now ≥ b.reset_at then ⟨0, now + 3600⟩ else b
  | none => ⟨0, now + 3600⟩

/-- The bucket that `_get_ip_day_bucket` yields at time `now`. -/
def peekIpDay (st : Store) (now : ℚ) (ip : String) : IpDayBucket :=
  match st.ip_day ip with
  | some b => if now ≥ b.reset_at then ⟨0, 0, now + 86400⟩ else b
  | none => ⟨0, 0, now + 86400⟩

/-- The bucket that `_get_global_hour` yields at time `now`. -/
def peekGlobalHour (st : Store) (now : ℚ) : CountBucket :=
  if now ≥ st.global_hour.reset_at then ⟨0, now + 3600⟩ else st.global_hour

/-- The bucket that `_get_global_day` yields at time `now`. -/
def peekGlobalDay (st : Store) (now : ℚ) : GlobalDayBucket :=
  if now ≥ st.global_day.reset_at then ⟨0, 0, 0, now + 86400⟩ else st.global_day

/-- The bucket that `_get_global_month_req` yields at time `now`. -/
def peekGlobalMonthReq (st : Store) (now : ℚ) : CountBucket :=
  if now ≥ st.global_month_req.reset_at then ⟨0, now + 30 * 86400⟩
  else st.global_month_req

/-- The bucket that `_get_global_month_cost` yields at time `now`. -/
def peekGlobalMonthCost (st : Store) (now : ℚ) : CostBucket :=
  if now ≥ st.global_month_cost.reset_at then ⟨0, now + 30 * 86400⟩
  else st.global_month_cost

-- ----- accessor characterization lemmas -----

theorem getIpHourBucket_eq (st : Store) (now : ℚ) (ip : String) :
    getIpHourBucket st now ip =
      (peekIpHour st now ip,
       { st with ip_hour := updMap st.ip_hour ip (peekIpHour st now ip) }) := by
  unfold getIpHourBucket peekIpHour
  cases h : st.ip_hour ip with
  | none => rfl
  | some b =>
    dsimp only
    split_ifs with hr
    · rfl
    · refine congrArg (Prod.mk b) (Store.ext ?_ rfl rfl rfl rfl rfl)
      funext k
      by_cases hk : k = ip <;> simp [updMap, hk, h]

theorem getIpDayBucket_eq (st : Store) (now : ℚ) (ip : String) :
    getIpDayBucket st now ip =
      (peekIpDay st now ip,
       { st with ip_day := updMap st.ip_day ip (peekIpDay st now ip) }) := by
  unfold getIpDayBucket peekIpDay
  cases h : st.ip_day ip with
  | none => rfl
  | some b =>
    dsimp only
    split_ifs with hr
    · rfl
    · refine congrArg (Prod.mk b) (Store.ext rfl ?_ rfl rfl rfl rfl)
      funext k
      by_cases hk : k = ip <;> simp [updMap, hk, h]

theorem getGlobalHour_eq (st : Store) (now : ℚ) :
    getGlobalHour st now =
      (peekGlobalHour st now, { st with global_hour := peekGlobalHour st now }) := by
  unfold getGlobalHour peekGlobalHour
  split_ifs <;> rfl

theorem getGlobalDay_eq (st : Store) (now : ℚ) :
    getGlobalDay st now =
      (peekGlobalDay st now, { st with global_day := peekGlobalDay st now }) := by
  unfold getGlobalDay peekGlobalDay
  split_ifs <;> rfl

theorem getGlobalMonthReq_eq (st : Store) (now : ℚ) :
    getGlobalMonthReq st now =
      (peekGlobalMonthReq st now,
       { st with global_month_req := peekGlobalMonthReq st now }) := by
  unfold getGlobalMonthReq peekGlobalMonthReq
  split_ifs <;> rfl

theorem getGlobalMonthCost_eq (st : Store) (now : ℚ) :
    getGlobalMonthCost st now =
      (peekGlobalMonthCost st now,
       { st with global_month_cost := peekGlobalMonthCost st now }) := by
  unfold getGlobalMonthCost peekGlobalMonthCost
  split_ifs <;> rfl

-- Each peek reads a single store field, so it ignores updates to the
-- other fields (all definitional equalities).

theorem peekIpDay_updIpHour (st : Store) (u : String → Option CountBucket)
    (now : ℚ) (ip : String) :
    peekIpDay { st with ip_hour := u } now ip = peekIpDay st now ip := rfl

theorem peekGlobalHour_updIp (st : Store) (u : String → Option CountBucket)
    (v : String → Option IpDayBucket) (now : ℚ) :
    peekGlobalHour { st with ip_hour := u, ip_day := v } now =
      peekGlobalHour st now := rfl

theorem peekGlobalDay_updIpHourlies (st : Store)
    (u : String → Option CountBucket) (v : String → Option IpDayBucket)
    (w : CountBucket) (now : ℚ) :
    peekGlobalDay { st with ip_hour := u, ip_day := v, global_hour := w } now =
      peekGlobalDay st now := rfl

theorem peekGlobalMonthReq_updEarlier (st : Store)
    (u : String → Option CountBucket) (v : String → Option IpDayBucket)
    (w : CountBucket) (x : GlobalDayBucket) (now : ℚ) :
    peekGlobalMonthReq
        { st with ip_hour := u, ip_day := v, global_hour := w, global_day := x }
        now =
      peekGlobalMonthReq st now := rfl

theorem peekGlobalMonthCost_updEarlier (st : Store)
    (u : String → Option CountBucket) (v : String → Option IpDayBucket)
    (w : CountBucket) (x : GlobalDayBucket) (y : CountBucket) (now : ℚ) :
    peekGlobalMonthCost
        { st with
          ip_hour := u
          ip_day := v
          global_hour := w
          global_day := x
          global_month_req := y }
        now =
      peekGlobalMonthCost st now := rfl

theorem updMap_updMap {α : Type} (m : String → Option α) (k : String) (a b : α) :
    updMap (updMap m k a) k b = updMap m k b := by
  funext k'
  unfold updMap
  split_ifs <;> rfl

-- ----- the staged stores seen at each point of the predicate chain -----

/-- Store after the per-ip hourly bucket has been fetched (bucket written
back fresh on creation/rollover, else unchanged). -/
def stageIpHour (st : Store) (now : ℚ) (ip : String) : Store :=
  { st with ip_hour := updMap st.ip_hour ip (peekIpHour st now ip) }

/-- Store after also fetching the per-ip daily bucket. -/
def stageIpDay (st : Store) (now : ℚ) (ip : String) : Store :=
  { stageIpHour st now ip with
    ip_day := updMap st.ip_day ip (peekIpDay st now ip) }

/-- Store after also fetching the global hourly bucket. -/
def stageGlobalHour (st : Store) (now : ℚ) (ip : String) : Store :=
  { stageIpDay st now ip with global_hour := peekGlobalHour st now }

/-- Store after also fetching the global daily bucket. -/
def stageGlobalDay (st : Store) (now : ℚ) (ip : String) : Store :=
  { stageGlobalHour st now ip with global_day := peekGlobalDay st now }

/-- Store after also fetching the global monthly request bucket. -/
def stageMonthReq (st : Store) (now : ℚ) (ip : String) : Store :=
  { stageGlobalDay st now ip with global_month_req := peekGlobalMonthReq st now }

/-- Store after also fetching the global monthly cost bucket. -/
def stageMonthCost (st : Store) (now : ℚ) (ip : String) : Store :=
  { stageMonthReq st now ip with global_month_cost := peekGlobalMonthCost st now }

/-- Store returned when all predicates pass: the five request counters are
one above their rolled-over values, everything else is the rolled-over
state. -/
def successStore (st : Store) (now : ℚ) (ip : String) : Store :=
  { stageMonthCost st now ip with
    ip_hour := updMap st.ip_hour ip
      ⟨(peekIpHour st now ip).count + 1, (peekIpHour st now ip).reset_at⟩
    ip_day := updMap st.ip_day ip
      ⟨(peekIpDay st now ip).count + 1, (peekIpDay st now ip).active_sec,
       (peekIpDay st now ip).reset_at⟩
    global_hour := ⟨(peekGlobalHour st now).count + 1,
                    (peekGlobalHour st now).reset_at⟩
    global_day := { peekGlobalDay st now with
                    count := (peekGlobalDay st now).count + 1 }
    global_month_req := ⟨(peekGlobalMonthReq st now).count + 1,
                         (peekGlobalMonthReq st now).reset_at⟩ }

/-- The eleven ordered predicate checks and their staged results, written
out as a decision tree over the rolled-over bucket views. `preCheckChecked`
is proved equal to this below. -/
def preCheckTree (cfg : Config) (st : Store) (now : ℚ) (ip : String)
    (sessCount : ℤ) (sessStarted : ℚ) : (Bool × Option String) × Store :=
  if now - sessStarted > cfg.per_session_max_age then
    ((false, some sessionTimeMsg), st)
  else if sessCount ≥ (cfg.per_session_max_req : ℤ) then
    ((false, some (sessionCapMsg cfg.per_session_max_req)), st)
  else if (peekIpHour st now ip).count ≥ cfg.per_ip_max_req_hour then
    ((false, some (ipHourlyMsg cfg.per_ip_max_req_hour
      (fmtWait ((peekIpHour st now ip).reset_at - now)))), stageIpHour st now ip)
  else if (peekIpDay st now ip).count ≥ cfg.per_ip_max_req_day then
    ((false, some (ipDailyMsg cfg.per_ip_max_req_day
      (fmtWait ((peekIpDay st now ip).reset_at - now)))), stageIpDay st now ip)
  else if (peekIpDay st now ip).active_sec ≥ (cfg.per_ip_max_active_sec_day : ℚ) then
    ((false, some (ipDailyActiveMsg cfg.per_ip_max_active_sec_day
      (fmtWait ((peekIpDay st now ip).reset_at - now)))), stageIpDay st now ip)
  else if (peekGlobalHour st now).count ≥ cfg.global_max_req_hour then
    ((false, some (globalHourlyMsg cfg.global_max_req_hour
      (fmtWait ((peekGlobalHour st now).reset_at - now)))), stageGlobalHour st now ip)
  else if (peekGlobalDay st now).count ≥ cfg.global_max_req_day then
    ((false, some (globalDailyMsg cfg.global_max_req_day
      (fmtWait ((peekGlobalDay st now).reset_at - now)))), stageGlobalDay st now ip)
  else if (peekGlobalDay st now).active_sec ≥ (cfg.global_max_active_sec_day : ℚ) then
    ((false, some (globalDailyActiveMsg cfg.global_max_active_sec_day
      (fmtWait ((peekGlobalDay st now).reset_at - now)))), stageGlobalDay st now ip)
  else if (peekGlobalDay st now).cost ≥ cfg.daily_cost_limit then
    ((false, some (globalDailyCostMsg cfg.daily_cost_limit
      (fmtWait ((peekGlobalDay st now).reset_at - now)))), stageGlobalDay st now ip)
  else if (peekGlobalMonthReq st now).count ≥ cfg.global_max_req_month then
    ((false, some (globalMonthlyMsg cfg.global_max_req_month
      (fmtWait ((peekGlobalMonthReq st now).reset_at - now)))), stageMonthReq st now ip)
  else if (peekGlobalMonthCost st now).cost ≥ cfg.monthly_cost_limit then
    ((false, some (globalMonthlyCostMsg cfg.monthly_cost_limit
      (fmtWait ((peekGlobalMonthCost st now).reset_at - now)))), stageMonthCost st now ip)
  else
    ((true, none), successStore st now ip)

theorem preCheckChecked_eq_tree (cfg : Config) (st : Store) (now : ℚ)
    (ip : String) (c : ℤ) (t : ℚ) :
    preCheckChecked cfg st now ip c t = preCheckTree cfg st now ip c t := by
  unfold preCheckChecked preCheckTree
  simp only [stageIpHour, stageIpDay, stageGlobalHour, stageGlobalDay,
    stageMonthReq, stageMonthCost, successStore,
    getIpHourBucket_eq, getIpDayBucket_eq, getGlobalHour_eq,
    getGlobalDay_eq, getGlobalMonthReq_eq, getGlobalMonthCost_eq,
    peekIpDay_updIpHour, peekGlobalHour_updIp, peekGlobalDay_updIpHourlies,
    peekGlobalMonthReq_updEarlier, peekGlobalMonthCost_updEarlier,
    updMap_updMap]

/-- On a well-typed session dict the conversions succeed, so `pre_check`
returns the predicate chain's result and `setdefault`s `started_at` (to
`now` exactly when it was absent) on success. -/
theorem pre_check_mkSession (cfg : Config) (st : Store) (now : ℚ)
    (ip : String) (c : ℤ) (t? : Option ℚ) :
    pre_check cfg st now ip (mkSession c t?) =
      .ok ((preCheckChecked cfg st now ip c (t?.getD now)).1,
           (preCheckChecked cfg st now ip c (t?.getD now)).2,
           if (preCheckChecked cfg st now ip c (t?.getD now)).1.1 then
             mkSession c (some (t?.getD now))
           else mkSession c t?) := by
  cases t? <;> rfl

-- ----- field projections with their Python dict defaults -----

/-- The per-ip hourly count stored for `k` (0 when no bucket exists). -/
def ipHourCountOf (st : Store) (k : String) : ℕ :=
  match st.ip_hour k with
  | some b => b.count
  | none => 0

/-- The per-ip daily count stored for `k`. -/
def ipDayCountOf (st : Store) (k : String) : ℕ :=
  match st.ip_day k with
  | some b => b.count
  | none => 0

/-- The per-ip daily active-seconds stored for `k`. -/
def ipDayActiveOf (st : Store) (k : String) : ℚ :=
  match st.ip_day k with
  | some b => b.active_sec
  | none => 0

-- ----- rollover only ever zeroes accumulated values -----

theorem peekIpHour_count (st : Store) (now : ℚ) (ip : String) :
    (peekIpHour st now ip).count = ipHourCountOf st ip ∨
      (peekIpHour st now ip).count = 0 := by
  unfold peekIpHour ipHourCountOf
  cases st.ip_hour ip with
  | none => exact Or.inr rfl
  | some b =>
    dsimp only
    split_ifs
    · exact Or.inr rfl
    · exact Or.inl rfl

theorem peekIpDay_count (st : Store) (now : ℚ) (ip : String) :
    (peekIpDay st now ip).count = ipDayCountOf st ip ∨
      (peekIpDay st now ip).count = 0 := by
  unfold peekIpDay ipDayCountOf
  cases st.ip_day ip with
  | none => exact Or.inr rfl
  | some b =>
    dsimp only
    split_ifs
    · exact Or.inr rfl
    · exact Or.inl rfl

theorem peekIpDay_active (st : Store) (now : ℚ) (ip : String) :
    (peekIpDay st now ip).active_sec = ipDayActiveOf st ip ∨
      (peekIpDay st now ip).active_sec = 0 := by
  unfold peekIpDay ipDayActiveOf
  cases st.ip_day ip with
  | none => exact Or.inr rfl
  | some b =>
    dsimp only
    split_ifs
    · exact Or.inr rfl
    · exact Or.inl rfl

theorem peekGlobalHour_count (st : Store) (now : ℚ) :
    (peekGlobalHour st now).count = st.global_hour.count ∨
      (peekGlobalHour st now).count = 0 := by
  unfold peekGlobalHour
  split_ifs
  · exact Or.inr rfl
  · exact Or.inl rfl

theorem peekGlobalDay_count (st : Store) (now : ℚ) :
    (peekGlobalDay st now).count = st.global_day.count ∨
      (peekGlobalDay st now).count = 0 := by
  unfold peekGlobalDay
  split_ifs
  · exact Or.inr rfl
  · exact Or.inl rfl

theorem peekGlobalDay_active (st : Store) (now : ℚ) :
    (peekGlobalDay st now).active_sec = st.global_day.active_sec ∨
      (peekGlobalDay st now).active_sec = 0 := by
  unfold peekGlobalDay
  split_ifs
  · exact Or.inr rfl
  · exact Or.inl rfl

theorem peekGlobalDay_cost (st : Store) (now : ℚ) :
    (peekGlobalDay st now).cost = st.global_day.cost ∨
      (peekGlobalDay st now).cost = 0 := by
  unfold peekGlobalDay
  split_ifs
  · exact Or.inr rfl
  · exact Or.inl rfl

theorem peekGlobalMonthReq_count (st : Store) (now : ℚ) :
    (peekGlobalMonthReq st now).count = st.global_month_req.count ∨
      (peekGlobalMonthReq st now).count = 0 := by
  unfold peekGlobalMonthReq
  split_ifs
  · exact Or.inr rfl
  · exact Or.inl rfl

theorem peekGlobalMonthCost_cost (st : Store) (now : ℚ) :
    (peekGlobalMonthCost st now).cost = st.global_month_cost.cost ∨
      (peekGlobalMonthCost st now).cost = 0 := by
  unfold peekGlobalMonthCost
  split_ifs
  · exact Or.inr rfl
  · exact Or.inl rfl

-- ----- "no counter is incremented, modulo rollover zeroing" -----

/-- Every count, active-seconds and cost value in `st'` is no greater than
the corresponding value in `st`, except that a rolled-over (or freshly
created) bucket may have been zeroed. -/
def noCounterIncrease (st' st : Store) : Prop :=
  (∀ k, ipHourCountOf st' k ≤ ipHourCountOf st k ∨ ipHourCountOf st' k = 0) ∧
  (∀ k, ipDayCountOf st' k ≤ ipDayCountOf st k ∨ ipDayCountOf st' k = 0) ∧
  (∀ k, ipDayActiveOf st' k ≤ ipDayActiveOf st k ∨ ipDayActiveOf st' k = 0) ∧
  (st'.global_hour.count ≤ st.global_hour.count ∨ st'.global_hour.count = 0) ∧
  (st'.global_day.count ≤ st.global_day.count ∨ st'.global_day.count = 0) ∧
  (st'.global_day.active_sec ≤ st.global_day.active_sec ∨
    st'.global_day.active_sec = 0) ∧
  (st'.global_day.cost ≤ st.global_day.cost ∨ st'.global_day.cost = 0) ∧
  (st'.global_month_req.count ≤ st.global_month_req.count ∨
    st'.global_month_req.count = 0) ∧
  (st'.global_month_cost.cost ≤ st.global_month_cost.cost ∨
    st'.global_month_cost.cost = 0)

theorem noCounterIncrease_refl (st : Store) : noCounterIncrease st st := by
  refine ⟨fun k => Or.inl le_rfl, fun k => Or.inl le_rfl, fun k => Or.inl le_rfl,
    Or.inl le_rfl, Or.inl le_rfl, Or.inl le_rfl, Or.inl le_rfl,
    Or.inl le_rfl, Or.inl le_rfl⟩

theorem ipHourCountOf_upd (st : Store) (now : ℚ) (ip : String) (st2 : Store)
    (hh : st2.ip_hour = updMap st.ip_hour ip (peekIpHour st now ip))
    (k : String) :
    ipHourCountOf st2 k ≤ ipHourCountOf st k ∨ ipHourCountOf st2 k = 0 := by
  unfold ipHourCountOf
  rw [hh]
  unfold updMap
  by_cases hk : k = ip
  · subst hk
    rw [if_pos rfl]
    rcases peekIpHour_count st now k with h2 | h2
    · exact Or.inl (le_of_eq (by rw [ipHourCountOf] at h2; exact h2))
    · exact Or.inr h2
  · rw [if_neg hk]
    exact Or.inl le_rfl

theorem ipDayCountOf_upd (st : Store) (now : ℚ) (ip : String) (st2 : Store)
    (hd : st2.ip_day = updMap st.ip_day ip (peekIpDay st now ip))
    (k : String) :
    ipDayCountOf st2 k ≤ ipDayCountOf st k ∨ ipDayCountOf st2 k = 0 := by
  unfold ipDayCountOf
  rw [hd]
  unfold updMap
  by_cases hk : k = ip
  · subst hk
    rw [if_pos rfl]
    rcases peekIpDay_count st now k with h2 | h2
    · exact Or.inl (le_of_eq (by rw [ipDayCountOf] at h2; exact h2))
    · exact Or.inr h2
  · rw [if_neg hk]
    exact Or.inl le_rfl

theorem ipDayActiveOf_upd (st : Store) (now : ℚ) (ip : String) (st2 : Store)
    (hd : st2.ip_day = updMap st.ip_day ip (peekIpDay st now ip))
    (k : String) :
    ipDayActiveOf st2 k ≤ ipDayActiveOf st k ∨ ipDayActiveOf st2 k = 0 := by
  unfold ipDayActiveOf
  rw [hd]
  unfold updMap
  by_cases hk : k = ip
  · subst hk
    rw [if_pos rfl]
    rcases peekIpDay_active st now k with h2 | h2
    · exact Or.inl (le_of_eq (by rw [ipDayActiveOf] at h2; exact h2))
    · exact Or.inr h2
  · rw [if_neg hk]
    exact Or.inl le_rfl

theorem noCounterIncrease_stageIpHour (st : Store) (now : ℚ) (ip : String) :
    noCounterIncrease (stageIpHour st now ip) st := by
  refine ⟨ipHourCountOf_upd st now ip _ rfl, fun k => Or.inl le_rfl,
    fun k => Or.inl le_rfl, Or.inl le_rfl, Or.inl le_rfl, Or.inl le_rfl,
    Or.inl le_rfl, Or.inl le_rfl, Or.inl le_rfl⟩

theorem noCounterIncrease_stageIpDay (st : Store) (now : ℚ) (ip : String) :
    noCounterIncrease (stageIpDay st now ip) st := by
  refine ⟨ipHourCountOf_upd st now ip _ rfl, ipDayCountOf_upd st now ip _ rfl,
    ipDayActiveOf_upd st now ip _ rfl, Or.inl le_rfl,
    Or.inl le_rfl, Or.inl le_rfl, Or.inl le_rfl, Or.inl le_rfl, Or.inl le_rfl⟩

theorem noCounterIncrease_stageGlobalHour (st : Store) (now : ℚ) (ip : String) :
    noCounterIncrease (stageGlobalHour st now ip) st := by
  refine ⟨ipHourCountOf_upd st now ip _ rfl, ipDayCountOf_upd st now ip _ rfl,
    ipDayActiveOf_upd st now ip _ rfl, ?_, Or.inl le_rfl,
    Or.inl le_rfl, Or.inl le_rfl, Or.inl le_rfl, Or.inl le_rfl⟩
  rcases peekGlobalHour_count st now with h | h
  · exact Or.inl (le_of_eq h)
  · exact Or.inr h

theorem noCounterIncrease_stageGlobalDay (st : Store) (now : ℚ) (ip : String) :
    noCounterIncrease (stageGlobalDay st now ip) st := by
  refine ⟨ipHourCountOf_upd st now ip _ rfl, ipDayCountOf_upd st now ip _ rfl,
    ipDayActiveOf_upd st now ip _ rfl, ?_, ?_, ?_, ?_,
    Or.inl le_rfl, Or.inl le_rfl⟩
  · rcases peekGlobalHour_count st now with h | h
    · exact Or.inl (le_of_eq h)
    · exact Or.inr h
  · rcases peekGlobalDay_count st now with h | h
    · exact Or.inl (le_of_eq h)
    · exact Or.inr h
  · rcases peekGlobalDay_active st now with h | h
    · exact Or.inl (le_of_eq h)
    · exact Or.inr h
  · rcases peekGlobalDay_cost st now with h | h
    · exact Or.inl (le_of_eq h)
    · exact Or.inr h

theorem noCounterIncrease_stageMonthReq (st : Store) (now : ℚ) (ip : String) :
    noCounterIncrease (stageMonthReq st now ip) st := by
  have h := noCounterIncrease_stageGlobalDay st now ip
  refine ⟨h.1, h.2.1, h.2.2.1, h.2.2.2.1, h.2.2.2.2.1, h.2.2.2.2.2.1,
    h.2.2.2.2.2.2.1, ?_, h.2.2.2.2.2.2.2.2⟩
  rcases peekGlobalMonthReq_count st now with h2 | h2
  · exact Or.inl (le_of_eq h2)
  · exact Or.inr h2

theorem noCounterIncrease_stageMonthCost (st : Store) (now : ℚ) (ip : String) :
    noCounterIncrease (stageMonthCost st now ip) st := by
  have h := noCounterIncrease_stageMonthReq st now ip
  refine ⟨h.1, h.2.1, h.2.2.1, h.2.2.2.1, h.2.2.2.2.1, h.2.2.2.2.2.1,
    h.2.2.2.2.2.2.1, h.2.2.2.2.2.2.2.1, ?_⟩
  rcases peekGlobalMonthCost_cost st now with h2 | h2
  · exact Or.inl (le_of_eq h2)
  · exact Or.inr h2

theorem except_ok_inj {α β γ : Type} {a a' : α} {b b' : β} {c c' : γ}
    (h : (Except.ok (a, b, c) : Except Unit (α × β × γ)) =
           Except.ok (a', b', c')) :
    a = a' ∧ b = b' ∧ c = c' := by
  injection h with h1
  injection h1 with ha hbc
  injection hbc with hb hc
  exact ⟨ha, hb, hc⟩

/-- The twelve mutually exclusive outcomes of `pre_check` on a well-typed
session, one per predicate in source order plus the all-clear case: the
first predicate that fires determines the returned reason, the store is
exactly the one threaded through the accessors fetched so far, and the
session dict is returned untouched on denial. -/
theorem pre_check_branches (cfg : Config) (st : Store) (now : ℚ)
    (ip : String) (c : ℤ) (t? : Option ℚ) :
    (now - t?.getD now > cfg.per_session_max_age →
      pre_check cfg st now ip (mkSession c t?) =
        .ok ((false, some sessionTimeMsg), st, mkSession c t?)) ∧
    (¬(now - t?.getD now > cfg.per_session_max_age) →
     c ≥ (cfg.per_session_max_req : ℤ) →
      pre_check cfg st now ip (mkSession c t?) =
        .ok ((false, some (sessionCapMsg cfg.per_session_max_req)), st,
             mkSession c t?)) ∧
    (¬(now - t?.getD now > cfg.per_session_max_age) →
     ¬(c ≥ (cfg.per_session_max_req : ℤ)) →
     (peekIpHour st now ip).count ≥ cfg.per_ip_max_req_hour →
      pre_check cfg st now ip (mkSession c t?) =
        .ok ((false, some (ipHourlyMsg cfg.per_ip_max_req_hour
              (fmtWait ((peekIpHour st now ip).reset_at - now)))),
             stageIpHour st now ip, mkSession c t?)) ∧
    (¬(now - t?.getD now > cfg.per_session_max_age) →
     ¬(c ≥ (cfg.per_session_max_req : ℤ)) →
     ¬((peekIpHour st now ip).count ≥ cfg.per_ip_max_req_hour) →
     (peekIpDay st now ip).count ≥ cfg.per_ip_max_req_day →
      pre_check cfg st now ip (mkSession c t?) =
        .ok ((false, some (ipDailyMsg cfg.per_ip_max_req_day
              (fmtWait ((peekIpDay st now ip).reset_at - now)))),
             stageIpDay st now ip, mkSession c t?)) ∧
    (¬(now - t?.getD now > cfg.per_session_max_age) →
     ¬(c ≥ (cfg.per_session_max_req : ℤ)) →
     ¬((peekIpHour st now ip).count ≥ cfg.per_ip_max_req_hour) →
     ¬((peekIpDay st now ip).count ≥ cfg.per_ip_max_req_day) →
     (peekIpDay st now ip).active_sec ≥ (cfg.per_ip_max_active_sec_day : ℚ) →
      pre_check cfg st now ip (mkSession c t?) =
        .ok ((false, some (ipDailyActiveMsg cfg.per_ip_max_active_sec_day
              (fmtWait ((peekIpDay st now ip).reset_at - now)))),
             stageIpDay st now ip, mkSession c t?)) ∧
    (¬(now - t?.getD now > cfg.per_session_max_age) →
     ¬(c ≥ (cfg.per_session_max_req : ℤ)) →
     ¬((peekIpHour st now ip).count ≥ cfg.per_ip_max_req_hour) →
     ¬((peekIpDay st now ip).count ≥ cfg.per_ip_max_req_day) →
     ¬((peekIpDay st now ip).active_sec ≥ (cfg.per_ip_max_active_sec_day : ℚ)) →
     (peekGlobalHour st now).count ≥ cfg.global_max_req_hour →
      pre_check cfg st now ip (mkSession c t?) =
        .ok ((false, some (globalHourlyMsg cfg.global_max_req_hour
              (fmtWait ((peekGlobalHour st now).reset_at - now)))),
             stageGlobalHour st now ip, mkSession c t?)) ∧
    (¬(now - t?.getD now > cfg.per_session_max_age) →
     ¬(c ≥ (cfg.per_session_max_req : ℤ)) →
     ¬((peekIpHour st now ip).count ≥ cfg.per_ip_max_req_hour) →
     ¬((peekIpDay st now ip).count ≥ cfg.per_ip_max_req_day) →
     ¬((peekIpDay st now ip).active_sec ≥ (cfg.per_ip_max_active_sec_day : ℚ)) →
     ¬((peekGlobalHour st now).count ≥ cfg.global_max_req_hour) →
     (peekGlobalDay st now).count ≥ cfg.global_max_req_day →
      pre_check cfg st now ip (mkSession c t?) =
        .ok ((false, some (globalDailyMsg cfg.global_max_req_day
              (fmtWait ((peekGlobalDay st now).reset_at - now)))),
             stageGlobalDay st now ip, mkSession c t?)) ∧
    (¬(now - t?.getD now > cfg.per_session_max_age) →
     ¬(c ≥ (cfg.per_session_max_req : ℤ)) →
     ¬((peekIpHour st now ip).count ≥ cfg.per_ip_max_req_hour) →
     ¬((peekIpDay st now ip).count ≥ cfg.per_ip_max_req_day) →
     ¬((peekIpDay st now ip).active_sec ≥ (cfg.per_ip_max_active_sec_day : ℚ)) →
     ¬((peekGlobalHour st now).count ≥ cfg.global_max_req_hour) →
     ¬((peekGlobalDay st now).count ≥ cfg.global_max_req_day) →
     (peekGlobalDay st now).active_sec ≥ (cfg.global_max_active_sec_day : ℚ) →
      pre_check cfg st now ip (mkSession c t?) =
        .ok ((false, some (globalDailyActiveMsg cfg.global_max_active_sec_day
              (fmtWait ((peekGlobalDay st now).reset_at - now)))),
             stageGlobalDay st now ip, mkSession c t?)) ∧
    (¬(now - t?.getD now > cfg.per_session_max_age) →
     ¬(c ≥ (cfg.per_session_max_req : ℤ)) →
     ¬((peekIpHour st now ip).count ≥ cfg.per_ip_max_req_hour) →
     ¬((peekIpDay st now ip).count ≥ cfg.per_ip_max_req_day) →
     ¬((peekIpDay st now ip).active_sec ≥ (cfg.per_ip_max_active_sec_day : ℚ)) →
     ¬((peekGlobalHour st now).count ≥ cfg.global_max_req_hour) →
     ¬((peekGlobalDay st now).count ≥ cfg.global_max_req_day) →
     ¬((peekGlobalDay st now).active_sec ≥ (cfg.global_max_active_sec_day : ℚ)) →
     (peekGlobalDay st now).cost ≥ cfg.daily_cost_limit →
      pre_check cfg st now ip (mkSession c t?) =
        .ok ((false, some (globalDailyCostMsg cfg.daily_cost_limit
              (fmtWait ((peekGlobalDay st now).reset_at - now)))),
             stageGlobalDay st now ip, mkSession c t?)) ∧
    (¬(now - t?.getD now > cfg.per_session_max_age) →
     ¬(c ≥ (cfg.per_session_max_req : ℤ)) →
     ¬((peekIpHour st now ip).count ≥ cfg.per_ip_max_req_hour) →
     ¬((peekIpDay st now ip).count ≥ cfg.per_ip_max_req_day) →
     ¬((peekIpDay st now ip).active_sec ≥ (cfg.per_ip_max_active_sec_day : ℚ)) →
     ¬((peekGlobalHour st now).count ≥ cfg.global_max_req_hour) →
     ¬((peekGlobalDay st now).count ≥ cfg.global_max_req_day) →
     ¬((peekGlobalDay st now).active_sec ≥ (cfg.global_max_active_sec_day : ℚ)) →
     ¬((peekGlobalDay st now).cost ≥ cfg.daily_cost_limit) →
     (peekGlobalMonthReq st now).count ≥ cfg.global_max_req_month →
      pre_check cfg st now ip (mkSession c t?) =
        .ok ((false, some (globalMonthlyMsg cfg.global_max_req_month
              (fmtWait ((peekGlobalMonthReq st now).reset_at - now)))),
             stageMonthReq st now ip, mkSession c t?)) ∧
    (¬(now - t?.getD now > cfg.per_session_max_age) →
     ¬(c ≥ (cfg.per_session_max_req : ℤ)) →
     ¬((peekIpHour st now ip).count ≥ cfg.per_ip_max_req_hour) →
     ¬((peekIpDay st now ip).count ≥ cfg.per_ip_max_req_day) →
     ¬((peekIpDay st now ip).active_sec ≥ (cfg.per_ip_max_active_sec_day : ℚ)) →
     ¬((peekGlobalHour st now).count ≥ cfg.global_max_req_hour) →
     ¬((peekGlobalDay st now).count ≥ cfg.global_max_req_day) →
     ¬((peekGlobalDay st now).active_sec ≥ (cfg.global_max_active_sec_day : ℚ)) →
     ¬((peekGlobalDay st now).cost ≥ cfg.daily_cost_limit) →
     ¬((peekGlobalMonthReq st now).count ≥ cfg.global_max_req_month) →
     (peekGlobalMonthCost st now).cost ≥ cfg.monthly_cost_limit →
      pre_check cfg st now ip (mkSession c t?) =
        .ok ((false, some (globalMonthlyCostMsg cfg.monthly_cost_limit
              (fmtWait ((peekGlobalMonthCost st now).reset_at - now)))),
             stageMonthCost st now ip, mkSession c t?)) ∧
    (¬(now - t?.getD now > cfg.per_session_max_age) →
     ¬(c ≥ (cfg.per_session_max_req : ℤ)) →
     ¬((peekIpHour st now ip).count ≥ cfg.per_ip_max_req_hour) →
     ¬((peekIpDay st now ip).count ≥ cfg.per_ip_max_req_day) →
     ¬((peekIpDay st now ip).active_sec ≥ (cfg.per_ip_max_active_sec_day : ℚ)) →
     ¬((peekGlobalHour st now).count ≥ cfg.global_max_req_hour) →
     ¬((peekGlobalDay st now).count ≥ cfg.global_max_req_day) →
     ¬((peekGlobalDay st now).active_sec ≥ (cfg.global_max_active_sec_day : ℚ)) →
     ¬((peekGlobalDay st now).cost ≥ cfg.daily_cost_limit) →
     ¬((peekGlobalMonthReq st now).count ≥ cfg.global_max_req_month) →
     ¬((peekGlobalMonthCost st now).cost ≥ cfg.monthly_cost_limit) →
      pre_check cfg st now ip (mkSession c t?) =
        .ok ((true, none), successStore st now ip,
             mkSession c (some (t?.getD now)))) := by
  have hpc := pre_check_mkSession cfg st now ip c t?
  simp only [preCheckChecked_eq_tree, preCheckTree] at hpc
  refine ⟨?_, ?_, ?_, ?_, ?_, ?_, ?_, ?_, ?_, ?_, ?_, ?_⟩
  · intro h1
    rw [hpc, if_pos h1]
    rfl
  · intro h1 h2
    rw [hpc, if_neg h1, if_pos h2]
    rfl
  · intro h1 h2 h3
    rw [hpc, if_neg h1, if_neg h2, if_pos h3]
    rfl
  · intro h1 h2 h3 h4
    rw [hpc, if_neg h1, if_neg h2, if_neg h3, if_pos h4]
    rfl
  · intro h1 h2 h3 h4 h5
    rw [hpc, if_neg h1, if_neg h2, if_neg h3, if_neg h4, if_pos h5]
    rfl
  · intro h1 h2 h3 h4 h5 h6
    rw [hpc, if_neg h1, if_neg h2, if_neg h3, if_neg h4, if_neg h5, if_pos h6]
    rfl
  · intro h1 h2 h3 h4 h5 h6 h7
    rw [hpc, if_neg h1, if_neg h2, if_neg h3, if_neg h4, if_neg h5, if_neg h6,
      if_pos h7]
    rfl
  · intro h1 h2 h3 h4 h5 h6 h7 h8
    rw [hpc, if_neg h1, if_neg h2, if_neg h3, if_neg h4, if_neg h5, if_neg h6,
      if_neg h7, if_pos h8]
    rfl
  · intro h1 h2 h3 h4 h5 h6 h7 h8 h9
    rw [hpc, if_neg h1, if_neg h2, if_neg h3, if_neg h4, if_neg h5, if_neg h6,
      if_neg h7, if_neg h8, if_pos h9]
    rfl
  · intro h1 h2 h3 h4 h5 h6 h7 h8 h9 h10
    rw [hpc, if_neg h1, if_neg h2, if_neg h3, if_neg h4, if_neg h5, if_neg h6,
      if_neg h7, if_neg h8, if_neg h9, if_pos h10]
    rfl
  · intro h1 h2 h3 h4 h5 h6 h7 h8 h9 h10 h11
    rw [hpc, if_neg h1, if_neg h2, if_neg h3, if_neg h4, if_neg h5, if_neg h6,
      if_neg h7, if_neg h8, if_neg h9, if_neg h10, if_pos h11]
    rfl
  · intro h1 h2 h3 h4 h5 h6 h7 h8 h9 h10 h11
    rw [hpc, if_neg h1, if_neg h2, if_neg h3, if_neg h4, if_neg h5, if_neg h6,
      if_neg h7, if_neg h8, if_neg h9, if_neg h10, if_neg h11]
    rfl

/-- C1: `pre_check` evaluates its quota predicates in the fixed order
session-age, session-count, per-client hourly count, per-client daily
count, per-client daily active-seconds, global hourly count, global daily
count, global daily active-seconds, global daily cost, global monthly
request count, global monthly cost; the first failing predicate determines
the returned reason (with exactly the buckets fetched so far rolled over,
so later predicates are never evaluated), and on every denial no bucket
counter is incremented: every count, active-seconds and cost value after
the call is no greater than before it, modulo rollover zeroing. -/
theorem pre_check_ordered_first_fail (cfg : Config) (st : Store) (now : ℚ)
    (ip : String) (c : ℤ) (t? : Option ℚ) :
    (now - t?.getD now > cfg.per_session_max_age →
      pre_check cfg st now ip (mkSession c t?) =
        .ok ((false, some sessionTimeMsg), st, mkSession c t?)) ∧
    (¬(now - t?.getD now > cfg.per_session_max_age) →
     c ≥ (cfg.per_session_max_req : ℤ) →
      pre_check cfg st now ip (mkSession c t?) =
        .ok ((false, some (sessionCapMsg cfg.per_session_max_req)), st,
             mkSession c t?)) ∧
    (¬(now - t?.getD now > cfg.per_session_max_age) →
     ¬(c ≥ (cfg.per_session_max_req : ℤ)) →
     (peekIpHour st now ip).count ≥ cfg.per_ip_max_req_hour →
      pre_check cfg st now ip (mkSession c t?) =
        .ok ((false, some (ipHourlyMsg cfg.per_ip_max_req_hour
              (fmtWait ((peekIpHour st now ip).reset_at - now)))),
             stageIpHour st now ip, mkSession c t?)) ∧
    (¬(now - t?.getD now > cfg.per_session_max_age) →
     ¬(c ≥ (cfg.per_session_max_req : ℤ)) →
     ¬((peekIpHour st now ip).count ≥ cfg.per_ip_max_req_hour) →
     (peekIpDay st now ip).count ≥ cfg.per_ip_max_req_day →
      pre_check cfg st now ip (mkSession c t?) =
        .ok ((false, some (ipDailyMsg cfg.per_ip_max_req_day
              (fmtWait ((peekIpDay st now ip).reset_at - now)))),
             stageIpDay st now ip, mkSession c t?)) ∧
    (¬(now - t?.getD now > cfg.per_session_max_age) →
     ¬(c ≥ (cfg.per_session_max_req : ℤ)) →
     ¬((peekIpHour st now ip).count ≥ cfg.per_ip_max_req_hour) →
     ¬((peekIpDay st now ip).count ≥ cfg.per_ip_max_req_day) →
     (peekIpDay st now ip).active_sec ≥ (cfg.per_ip_max_active_sec_day : ℚ) →
      pre_check cfg st now ip (mkSession c t?) =
        .ok ((false, some (ipDailyActiveMsg cfg.per_ip_max_active_sec_day
              (fmtWait ((peekIpDay st now ip).reset_at - now)))),
             stageIpDay st now ip, mkSession c t?)) ∧
    (¬(now - t?.getD now > cfg.per_session_max_age) →
     ¬(c ≥ (cfg.per_session_max_req : ℤ)) →
     ¬((peekIpHour st now ip).count ≥ cfg.per_ip_max_req_hour) →
     ¬((peekIpDay st now ip).count ≥ cfg.per_ip_max_req_day) →
     ¬((peekIpDay st now ip).active_sec ≥ (cfg.per_ip_max_active_sec_day : ℚ)) →
     (peekGlobalHour st now).count ≥ cfg.global_max_req_hour →
      pre_check cfg st now ip (mkSession c t?) =
        .ok ((false, some (globalHourlyMsg cfg.global_max_req_hour
              (fmtWait ((peekGlobalHour st now).reset_at - now)))),
             stageGlobalHour st now ip, mkSession c t?)) ∧
    (¬(now - t?.getD now > cfg.per_session_max_age) →
     ¬(c ≥ (cfg.per_session_max_req : ℤ)) →
     ¬((peekIpHour st now ip).count ≥ cfg.per_ip_max_req_hour) →
     ¬((peekIpDay st now ip).count ≥ cfg.per_ip_max_req_day) →
     ¬((peekIpDay st now ip).active_sec ≥ (cfg.per_ip_max_active_sec_day : ℚ)) →
     ¬((peekGlobalHour st now).count ≥ cfg.global_max_req_hour) →
     (peekGlobalDay st now).count ≥ cfg.global_max_req_day →
      pre_check cfg st now ip (mkSession c t?) =
        .ok ((false, some (globalDailyMsg cfg.global_max_req_day
              (fmtWait ((peekGlobalDay st now).reset_at - now)))),
             stageGlobalDay st now ip, mkSession c t?)) ∧
    (¬(now - t?.getD now > cfg.per_session_max_age) →
     ¬(c ≥ (cfg.per_session_max_req : ℤ)) →
     ¬((peekIpHour st now ip).count ≥ cfg.per_ip_max_req_hour) →
     ¬((peekIpDay st now ip).count ≥ cfg.per_ip_max_req_day) →
     ¬((peekIpDay st now ip).active_sec ≥ (cfg.per_ip_max_active_sec_day : ℚ)) →
     ¬((peekGlobalHour st now).count ≥ cfg.global_max_req_hour) →
     ¬((peekGlobalDay st now).count ≥ cfg.global_max_req_day) →
     (peekGlobalDay st now).active_sec ≥ (cfg.global_max_active_sec_day : ℚ) →
      pre_check cfg st now ip (mkSession c t?) =
        .ok ((false, some (globalDailyActiveMsg cfg.global_max_active_sec_day
              (fmtWait ((peekGlobalDay st now).reset_at - now)))),
             stageGlobalDay st now ip, mkSession c t?)) ∧
    (¬(now - t?.getD now > cfg.per_session_max_age) →
     ¬(c ≥ (cfg.per_session_max_req : ℤ)) →
     ¬((peekIpHour st now ip).count ≥ cfg.per_ip_max_req_hour) →
     ¬((peekIpDay st now ip).count ≥ cfg.per_ip_max_req_day) →
     ¬((peekIpDay st now ip).active_sec ≥ (cfg.per_ip_max_active_sec_day : ℚ)) →
     ¬((peekGlobalHour st now).count ≥ cfg.global_max_req_hour) →
     ¬((peekGlobalDay st now).count ≥ cfg.global_max_req_day) →
     ¬((peekGlobalDay st now).active_sec ≥ (cfg.global_max_active_sec_day : ℚ)) →
     (peekGlobalDay st now).cost ≥ cfg.daily_cost_limit →
      pre_check cfg st now ip (mkSession c t?) =
        .ok ((false, some (globalDailyCostMsg cfg.daily_cost_limit
              (fmtWait ((peekGlobalDay st now).reset_at - now)))),
             stageGlobalDay st now ip, mkSession c t?)) ∧
    (¬(now - t?.getD now > cfg.per_session_max_age) →
     ¬(c ≥ (cfg.per_session_max_req : ℤ)) →
     ¬((peekIpHour st now ip).count ≥ cfg.per_ip_max_req_hour) →
     ¬((peekIpDay st now ip).count ≥ cfg.per_ip_max_req_day) →
     ¬((peekIpDay st now ip).active_sec ≥ (cfg.per_ip_max_active_sec_day : ℚ)) →
     ¬((peekGlobalHour st now).count ≥ cfg.global_max_req_hour) →
     ¬((peekGlobalDay st now).count ≥ cfg.global_max_req_day) →
     ¬((peekGlobalDay st now).active_sec ≥ (cfg.global_max_active_sec_day : ℚ)) →
     ¬((peekGlobalDay st now).cost ≥ cfg.daily_cost_limit) →
     (peekGlobalMonthReq st now).count ≥ cfg.global_max_req_month →
      pre_check cfg st now ip (mkSession c t?) =
        .ok ((false, some (globalMonthlyMsg cfg.global_max_req_month
              (fmtWait ((peekGlobalMonthReq st now).reset_at - now)))),
             stageMonthReq st now ip, mkSession c t?)) ∧
    (¬(now - t?.getD now > cfg.per_session_max_age) →
     ¬(c ≥ (cfg.per_session_max_req : ℤ)) →
     ¬((peekIpHour st now ip).count ≥ cfg.per_ip_max_req_hour) →
     ¬((peekIpDay st now ip).count ≥ cfg.per_ip_max_req_day) →
     ¬((peekIpDay st now ip).active_sec ≥ (cfg.per_ip_max_active_sec_day : ℚ)) →
     ¬((peekGlobalHour st now).count ≥ cfg.global_max_req_hour) →
     ¬((peekGlobalDay st now).count ≥ cfg.global_max_req_day) →
     ¬((peekGlobalDay st now).active_sec ≥ (cfg.global_max_active_sec_day : ℚ)) →
     ¬((peekGlobalDay st now).cost ≥ cfg.daily_cost_limit) →
     ¬((peekGlobalMonthReq st now).count ≥ cfg.global_max_req_month) →
     (peekGlobalMonthCost st now).cost ≥ cfg.monthly_cost_limit →
      pre_check cfg st now ip (mkSession c t?) =
        .ok ((false, some (globalMonthlyCostMsg cfg.monthly_cost_limit
              (fmtWait ((peekGlobalMonthCost st now).reset_at - now)))),
             stageMonthCost st now ip, mkSession c t?)) ∧
    (∀ m st' s',
      pre_check cfg st now ip (mkSession c t?) = .ok ((false, m), st', s') →
      noCounterIncrease st' st ∧ s' = mkSession c t?) := by
  obtain ⟨h1, h2, h3, h4, h5, h6, h7, h8, h9, h10, h11, h12⟩ :=
    pre_check_branches cfg st now ip c t?
  refine ⟨h1, h2, h3, h4, h5, h6, h7, h8, h9, h10, h11, ?_⟩
  intro m st' s' h
  by_cases hc1 : now - t?.getD now > cfg.per_session_max_age
  · rw [h1 hc1] at h
    obtain ⟨_, hst, hs⟩ := except_ok_inj h
    subst hst
    exact ⟨noCounterIncrease_refl st, hs.symm⟩
  by_cases hc2 : c ≥ (cfg.per_session_max_req : ℤ)
  · rw [h2 hc1 hc2] at h
    obtain ⟨_, hst, hs⟩ := except_ok_inj h
    subst hst
    exact ⟨noCounterIncrease_refl st, hs.symm⟩
  by_cases hc3 : (peekIpHour st now ip).count ≥ cfg.per_ip_max_req_hour
  · rw [h3 hc1 hc2 hc3] at h
    obtain ⟨_, hst, hs⟩ := except_ok_inj h
    subst hst
    exact ⟨noCounterIncrease_stageIpHour st now ip, hs.symm⟩
  by_cases hc4 : (peekIpDay st now ip).count ≥ cfg.per_ip_max_req_day
  · rw [h4 hc1 hc2 hc3 hc4] at h
    obtain ⟨_, hst, hs⟩ := except_ok_inj h
    subst hst
    exact ⟨noCounterIncrease_stageIpDay st now ip, hs.symm⟩
  by_cases hc5 : (peekIpDay st now ip).active_sec ≥ (cfg.per_ip_max_active_sec_day : ℚ)
  · rw [h5 hc1 hc2 hc3 hc4 hc5] at h
    obtain ⟨_, hst, hs⟩ := except_ok_inj h
    subst hst
    exact ⟨noCounterIncrease_stageIpDay st now ip, hs.symm⟩
  by_cases hc6 : (peekGlobalHour st now).count ≥ cfg.global_max_req_hour
  · rw [h6 hc1 hc2 hc3 hc4 hc5 hc6] at h
    obtain ⟨_, hst, hs⟩ := except_ok_inj h
    subst hst
    exact ⟨noCounterIncrease_stageGlobalHour st now ip, hs.symm⟩
  by_cases hc7 : (peekGlobalDay st now).count ≥ cfg.global_max_req_day
  · rw [h7 hc1 hc2 hc3 hc4 hc5 hc6 hc7] at h
    obtain ⟨_, hst, hs⟩ := except_ok_inj h
    subst hst
    exact ⟨noCounterIncrease_stageGlobalDay st now ip, hs.symm⟩
  by_cases hc8 : (peekGlobalDay st now).active_sec ≥ (cfg.global_max_active_sec_day : ℚ)
  · rw [h8 hc1 hc2 hc3 hc4 hc5 hc6 hc7 hc8] at h
    obtain ⟨_, hst, hs⟩ := except_ok_inj h
    subst hst
    exact ⟨noCounterIncrease_stageGlobalDay st now ip, hs.symm⟩
  by_cases hc9 : (peekGlobalDay st now).cost ≥ cfg.daily_cost_limit
  · rw [h9 hc1 hc2 hc3 hc4 hc5 hc6 hc7 hc8 hc9] at h
    obtain ⟨_, hst, hs⟩ := except_ok_inj h
    subst hst
    exact ⟨noCounterIncrease_stageGlobalDay st now ip, hs.symm⟩
  by_cases hc10 : (peekGlobalMonthReq st now).count ≥ cfg.global_max_req_month
  · rw [h10 hc1 hc2 hc3 hc4 hc5 hc6 hc7 hc8 hc9 hc10] at h
    obtain ⟨_, hst, hs⟩ := except_ok_inj h
    subst hst
    exact ⟨noCounterIncrease_stageMonthReq st now ip, hs.symm⟩
  by_cases hc11 : (peekGlobalMonthCost st now).cost ≥ cfg.monthly_cost_limit
  · rw [h11 hc1 hc2 hc3 hc4 hc5 hc6 hc7 hc8 hc9 hc10 hc11] at h
    obtain ⟨_, hst, hs⟩ := except_ok_inj h
    subst hst
    exact ⟨noCounterIncrease_stageMonthCost st now ip, hs.symm⟩
  rw [h12 hc1 hc2 hc3 hc4 hc5 hc6 hc7 hc8 hc9 hc10 hc11] at h
  obtain ⟨hr, _, _⟩ := except_ok_inj h
  exact Bool.noConfusion (congrArg Prod.fst hr)

/-- C1 witness: with the default configuration, a fresh store and a
session started at time 0 queried at time 10000, the session-age predicate
fires and the call denies with the session-time reason, leaving the store
untouched. -/
theorem pre_check_ordered_first_fail_witness :
    ((10000 : ℚ) - (some (0 : ℚ)).getD 10000 >
        defaultConfig.per_session_max_age) ∧
    pre_check defaultConfig (initStore 0) 10000 "1.2.3.4"
        (mkSession 0 (some 0)) =
      .ok ((false, some sessionTimeMsg), initStore 0, mkSession 0 (some 0)) :=
  ⟨by norm_num [defaultConfig],
   (pre_check_ordered_first_fail defaultConfig (initStore 0) 10000 "1.2.3.4"
      0 (some 0)).1 (by norm_num [defaultConfig])⟩

/-- C2: when all eleven predicates pass, `pre_check` increments exactly the
five request counters (per-client hourly and daily, global hourly, daily
and monthly) by one over their rolled-over values, leaves every
active-seconds and cost field at its rolled-over value, touches no other
client's buckets, sets `session.started_at` to `now` exactly when it was
absent (`t? = none`), and returns `(true, none)`. -/
theorem pre_check_success_increments (cfg : Config) (st : Store) (now : ℚ)
    (ip : String) (c : ℤ) (t? : Option ℚ)
    (hn1 : ¬(now - t?.getD now > cfg.per_session_max_age))
    (hn2 : ¬(c ≥ (cfg.per_session_max_req : ℤ)))
    (hn3 : ¬((peekIpHour st now ip).count ≥ cfg.per_ip_max_req_hour))
    (hn4 : ¬((peekIpDay st now ip).count ≥ cfg.per_ip_max_req_day))
    (hn5 : ¬((peekIpDay st now ip).active_sec ≥ (cfg.per_ip_max_active_sec_day : ℚ)))
    (hn6 : ¬((peekGlobalHour st now).count ≥ cfg.global_max_req_hour))
    (hn7 : ¬((peekGlobalDay st now).count ≥ cfg.global_max_req_day))
    (hn8 : ¬((peekGlobalDay st now).active_sec ≥ (cfg.global_max_active_sec_day : ℚ)))
    (hn9 : ¬((peekGlobalDay st now).cost ≥ cfg.daily_cost_limit))
    (hn10 : ¬((peekGlobalMonthReq st now).count ≥ cfg.global_max_req_month))
    (hn11 : ¬((peekGlobalMonthCost st now).cost ≥ cfg.monthly_cost_limit)) :
    pre_check cfg st now ip (mkSession c t?) =
      .ok ((true, none), successStore st now ip,
           mkSession c (some (t?.getD now))) ∧
    ipHourCountOf (successStore st now ip) ip =
      (peekIpHour st now ip).count + 1 ∧
    ipDayCountOf (successStore st now ip) ip =
      (peekIpDay st now ip).count + 1 ∧
    (successStore st now ip).global_hour.count =
      (peekGlobalHour st now).count + 1 ∧
    (successStore st now ip).global_day.count =
      (peekGlobalDay st now).count + 1 ∧
    (successStore st now ip).global_month_req.count =
      (peekGlobalMonthReq st now).count + 1 ∧
    ipDayActiveOf (successStore st now ip) ip =
      (peekIpDay st now ip).active_sec ∧
    (successStore st now ip).global_day.active_sec =
      (peekGlobalDay st now).active_sec ∧
    (successStore st now ip).global_day.cost = (peekGlobalDay st now).cost ∧
    (successStore st now ip).global_month_cost = peekGlobalMonthCost st now ∧
    (∀ k, k ≠ ip → (successStore st now ip).ip_hour k = st.ip_hour k ∧
                   (successStore st now ip).ip_day k = st.ip_day k) := by
  obtain ⟨_, _, _, _, _, _, _, _, _, _, _, h12⟩ :=
    pre_check_branches cfg st now ip c t?
  refine ⟨h12 hn1 hn2 hn3 hn4 hn5 hn6 hn7 hn8 hn9 hn10 hn11,
    ?_, ?_, rfl, rfl, rfl, ?_, rfl, rfl, rfl, ?_⟩
  · simp [successStore, ipHourCountOf, updMap]
  · simp [successStore, ipDayCountOf, updMap]
  · simp [successStore, ipDayActiveOf, updMap]
  · intro k hk
    constructor <;> simp [successStore, stageMonthCost, stageMonthReq,
      stageGlobalDay, stageGlobalHour, stageIpDay, stageIpHour, updMap, hk]

/-- C2 witness: fresh limiter, default configuration, a new session with
absent `started_at`: the call is allowed, the five counters read 1, and
`started_at` is set to the current time. -/
theorem pre_check_success_increments_witness :
    (¬((0 : ℚ) - (none : Option ℚ).getD 0 > defaultConfig.per_session_max_age) ∧
     ¬((0 : ℤ) ≥ (defaultConfig.per_session_max_req : ℤ)) ∧
     ¬((peekIpHour (initStore 0) 0 "1.2.3.4").count ≥
         defaultConfig.per_ip_max_req_hour) ∧
     ¬((peekIpDay (initStore 0) 0 "1.2.3.4").count ≥
         defaultConfig.per_ip_max_req_day) ∧
     ¬((peekIpDay (initStore 0) 0 "1.2.3.4").active_sec ≥
         (defaultConfig.per_ip_max_active_sec_day : ℚ)) ∧
     ¬((peekGlobalHour (initStore 0) 0).count ≥
         defaultConfig.global_max_req_hour) ∧
     ¬((peekGlobalDay (initStore 0) 0).count ≥
         defaultConfig.global_max_req_day) ∧
     ¬((peekGlobalDay (initStore 0) 0).active_sec ≥
         (defaultConfig.global_max_active_sec_day : ℚ)) ∧
     ¬((peekGlobalDay (initStore 0) 0).cost ≥ defaultConfig.daily_cost_limit) ∧
     ¬((peekGlobalMonthReq (initStore 0) 0).count ≥
         defaultConfig.global_max_req_month) ∧
     ¬((peekGlobalMonthCost (initStore 0) 0).cost ≥
         defaultConfig.monthly_cost_limit)) ∧
    pre_check defaultConfig (initStore 0) 0 "1.2.3.4" (mkSession 0 none) =
      .ok ((true, none), successStore (initStore 0) 0 "1.2.3.4",
           mkSession 0 (some ((none : Option ℚ).getD 0))) :=
  ⟨⟨by norm_num [defaultConfig],
    by norm_num [defaultConfig],
    by norm_num [peekIpHour, initStore, defaultConfig],
    by norm_num [peekIpDay, initStore, defaultConfig],
    by norm_num [peekIpDay, initStore, defaultConfig],
    by norm_num [peekGlobalHour, initStore, defaultConfig],
    by norm_num [peekGlobalDay, initStore, defaultConfig],
    by norm_num [peekGlobalDay, initStore, defaultConfig],
    by norm_num [peekGlobalDay, initStore, defaultConfig],
    by norm_num [peekGlobalMonthReq, initStore, defaultConfig],
    by norm_num [peekGlobalMonthCost, initStore, defaultConfig]⟩,
   (pre_check_success_increments defaultConfig (initStore 0) 0 "1.2.3.4" 0 none
      (by norm_num [defaultConfig])
      (by norm_num [defaultConfig])
      (by norm_num [peekIpHour, initStore, defaultConfig])
      (by norm_num [peekIpDay, initStore, defaultConfig])
      (by norm_num [peekIpDay, initStore, defaultConfig])
      (by norm_num [peekGlobalHour, initStore, defaultConfig])
      (by norm_num [peekGlobalDay, initStore, defaultConfig])
      (by norm_num [peekGlobalDay, initStore, defaultConfig])
      (by norm_num [peekGlobalDay, initStore, defaultConfig])
      (by norm_num [peekGlobalMonthReq, initStore, defaultConfig])
      (by norm_num [peekGlobalMonthCost, initStore, defaultConfig])).1⟩

/-- C7: when the session age is within the cap and the session count has
reached `per_session_max_req`, `pre_check` denies with exactly the
session-request-cap message, which carries the configured cap value and no
wait-time estimate; the store and session are untouched. -/
theorem pre_check_session_cap_message (cfg : Config) (st : Store) (now : ℚ)
    (ip : String) (c : ℤ) (t? : Option ℚ)
    (hage : ¬(now - t?.getD now > cfg.per_session_max_age))
    (hcnt : c ≥ (cfg.per_session_max_req : ℤ)) :
    pre_check cfg st now ip (mkSession c t?) =
      .ok ((false, some (sessionCapMsg cfg.per_session_max_req)), st,
           mkSession c t?) ∧
    sessionCapMsg cfg.per_session_max_req =
      "session request cap reached (" ++ toString cfg.per_session_max_req ++
        "). refresh the tab to start a new session." :=
  ⟨(pre_check_branches cfg st now ip c t?).2.1 hage hcnt, rfl⟩

/-- C7 witness: with cap 5 and session count 5, the reason is the literal
session-cap message naming the cap, with no wait-time estimate. -/
theorem pre_check_session_cap_message_witness :
    (¬((0 : ℚ) - (some (0 : ℚ)).getD 0 > defaultConfig.per_session_max_age) ∧
     (5 : ℤ) ≥ (defaultConfig.per_session_max_req : ℤ)) ∧
    pre_check defaultConfig (initStore 0) 0 "1.2.3.4" (mkSession 5 (some 0)) =
      .ok ((false, some (sessionCapMsg defaultConfig.per_session_max_req)),
           initStore 0, mkSession 5 (some 0)) ∧
    sessionCapMsg defaultConfig.per_session_max_req =
      "session request cap reached (5). refresh the tab to start a new session." :=
  ⟨⟨by norm_num [defaultConfig], by norm_num [defaultConfig]⟩,
   (pre_check_session_cap_message defaultConfig (initStore 0) 0 "1.2.3.4" 5
      (some 0) (by norm_num [defaultConfig]) (by norm_num [defaultConfig])).1,
   rfl⟩

-- ----- canonical form of `post_consume` -----

theorem peekGlobalDay_updIpDay (st : Store) (v : String → Option IpDayBucket)
    (now : ℚ) :
    peekGlobalDay { st with ip_day := v } now = peekGlobalDay st now := rfl

theorem peekGlobalMonthCost_updDayParts (st : Store)
    (v : String → Option IpDayBucket) (x : GlobalDayBucket) (now : ℚ) :
    peekGlobalMonthCost { st with ip_day := v, global_day := x } now =
      peekGlobalMonthCost st now := rfl

/-- The store produced by `post_consume`: the three daily/monthly buckets
it touches are rolled over and charged, everything else is untouched. -/
def postConsumeStore (cfg : Config) (st : Store) (now : ℚ) (ip : String)
    (d : ℚ) : Store :=
  { st with
    ip_day := updMap st.ip_day ip
      { peekIpDay st now ip with
        active_sec := (peekIpDay st now ip).active_sec + d }
    global_day := { peekGlobalDay st now with
      active_sec := (peekGlobalDay st now).active_sec + d
      cost := (peekGlobalDay st now).cost + d * cfg.cost_per_sec }
    global_month_cost := { peekGlobalMonthCost st now with
      cost := (peekGlobalMonthCost st now).cost + d * cfg.cost_per_sec } }

theorem post_consume_eq (cfg : Config) (st : Store) (now : ℚ) (ip : String)
    (d : ℚ) :
    post_consume cfg st now ip d = postConsumeStore cfg st now ip d := by
  unfold post_consume postConsumeStore
  simp only [getIpDayBucket_eq, getGlobalDay_eq, getGlobalMonthCost_eq,
    peekGlobalDay_updIpDay, peekGlobalMonthCost_updDayParts, updMap_updMap]

/-- C3: `post_consume` adds the duration to the per-client and global
daily active-seconds and `duration * cost_per_sec` to the global daily and
monthly cost buckets (each relative to the bucket's rolled-over value). -/
theorem post_consume_adds (cfg : Config) (st : Store) (now : ℚ) (ip : String)
    (d : ℚ) (hd : 0 ≤ d) :
    ipDayActiveOf (post_consume cfg st now ip d) ip =
      (peekIpDay st now ip).active_sec + d ∧
    (post_consume cfg st now ip d).global_day.active_sec =
      (peekGlobalDay st now).active_sec + d ∧
    (post_consume cfg st now ip d).global_day.cost =
      (peekGlobalDay st now).cost + d * cfg.cost_per_sec ∧
    (post_consume cfg st now ip d).global_month_cost.cost =
      (peekGlobalMonthCost st now).cost + d * cfg.cost_per_sec := by
  rw [post_consume_eq]
  refine ⟨?_, rfl, rfl, rfl⟩
  simp [postConsumeStore, ipDayActiveOf, updMap]

/-- C3 witness: `post_consume("1.2.3.4", 10.0)` with
`cost_per_sec = 0.0005 = 1/2000` increases the global daily cost by
exactly `0.005 = 1/200`. -/
theorem post_consume_adds_witness :
    (0 : ℚ) ≤ 10 ∧
    (post_consume defaultConfig (initStore 0) 5 "1.2.3.4" 10).global_day.cost =
      (initStore 0).global_day.cost + 1 / 200 := by
  refine ⟨by norm_num, ?_⟩
  have h := (post_consume_adds defaultConfig (initStore 0) 5 "1.2.3.4" 10
    (by norm_num)).2.2.1
  rw [h]
  norm_num [peekGlobalDay, initStore, defaultConfig]

-- ----- sequences of `post_consume` calls -----

/-- Run `post_consume` once per `(now, duration)` pair, left to right. -/
def runPostConsumes (cfg : Config) (ip : String) :
    List (ℚ × ℚ) → Store → Store
  | [], st => st
  | (now, d) :: rest, st =>
    runPostConsumes cfg ip rest (post_consume cfg st now ip d)

theorem runPostConsumes_cost (cfg : Config) (ip : String) :
    ∀ (calls : List (ℚ × ℚ)) (st : Store),
    (∀ p ∈ calls, p.1 < st.global_day.reset_at) →
    (runPostConsumes cfg ip calls st).global_day.cost =
      st.global_day.cost + cfg.cost_per_sec * (calls.map Prod.snd).sum ∧
    (runPostConsumes cfg ip calls st).global_day.reset_at =
      st.global_day.reset_at := by
  intro calls
  induction calls with
  | nil =>
    intro st _
    exact ⟨by simp [runPostConsumes], rfl⟩
  | cons p rest ih =>
    intro st h
    obtain ⟨now, d⟩ := p
    have hnow : now < st.global_day.reset_at :=
      h (now, d) (List.mem_cons_self _ _)
    have hpeek : peekGlobalDay st now = st.global_day := by
      unfold peekGlobalDay
      rw [if_neg (not_le.mpr hnow)]
    have h1 : (post_consume cfg st now ip d).global_day.cost =
        st.global_day.cost + d * cfg.cost_per_sec := by
      rw [post_consume_eq]
      simp [postConsumeStore, hpeek]
    have h2 : (post_consume cfg st now ip d).global_day.reset_at =
        st.global_day.reset_at := by
      rw [post_consume_eq]
      simp [postConsumeStore, hpeek]
    have hrest : ∀ q ∈ rest, q.1 <
        (post_consume cfg st now ip d).global_day.reset_at := by
      intro q hq
      rw [h2]
      exact h q (List.mem_cons_of_mem _ hq)
    obtain ⟨ha, hb⟩ := ih (post_consume cfg st now ip d) hrest
    refine ⟨?_, by rw [runPostConsumes, hb, h2]⟩
    rw [runPostConsumes, ha, h1]
    simp only [List.map_cons, List.sum_cons]
    ring

/-- C6: for any sequence of `post_consume` calls with the same client,
non-negative durations, starting from a zero global-daily cost, with every
call before the bucket's reset boundary (no rollover in between), the
global daily cost afterwards is exactly `cost_per_sec * (d1 + d2 + ...)`. -/
theorem post_consume_seq_cost (cfg : Config) (ip : String)
    (calls : List (ℚ × ℚ)) (st : Store)
    (hzero : st.global_day.cost = 0)
    (hnn : ∀ p ∈ calls, 0 ≤ p.2)
    (hnoroll : ∀ p ∈ calls, p.1 < st.global_day.reset_at) :
    (runPostConsumes cfg ip calls st).global_day.cost =
      cfg.cost_per_sec * (calls.map Prod.snd).sum := by
  rw [(runPostConsumes_cost cfg ip calls st hnoroll).1, hzero, zero_add]

/-- C6 witness: two calls of durations 2 and 4 on a fresh store accumulate
`cost_per_sec * 6`. -/
theorem post_consume_seq_cost_witness :
    ((initStore 0).global_day.cost = 0 ∧
     (∀ p ∈ [((1 : ℚ), (2 : ℚ)), (3, 4)], 0 ≤ p.2) ∧
     (∀ p ∈ [((1 : ℚ), (2 : ℚ)), (3, 4)],
        p.1 < (initStore 0).global_day.reset_at)) ∧
    (runPostConsumes defaultConfig "1.2.3.4" [((1 : ℚ), (2 : ℚ)), (3, 4)]
        (initStore 0)).global_day.cost =
      defaultConfig.cost_per_sec *
        (([((1 : ℚ), (2 : ℚ)), (3, 4)].map Prod.snd).sum) := by
  have hnn : ∀ p ∈ [((1 : ℚ), (2 : ℚ)), (3, 4)], 0 ≤ p.2 := by
    intro p hp
    simp only [List.mem_cons, List.not_mem_nil, or_false] at hp
    rcases hp with rfl | rfl <;> norm_num
  have hnr : ∀ p ∈ [((1 : ℚ), (2 : ℚ)), (3, 4)],
      p.1 < (initStore 0).global_day.reset_at := by
    intro p hp
    simp only [List.mem_cons, List.not_mem_nil, or_false] at hp
    rcases hp with rfl | rfl <;> norm_num [initStore]
  exact ⟨⟨rfl, hnn, hnr⟩,
    post_consume_seq_cost defaultConfig "1.2.3.4" _ (initStore 0) rfl hnn hnr⟩

/-- C10: `post_consume` never touches the per-client hourly map, the
global hourly bucket or the global monthly-request bucket (they are equal,
not merely equivalent, so no rollover of theirs can be triggered), leaves
every request-count field at its rolled-over value, and changes only the
active-seconds and cost fields (plus rollover) of the per-client daily,
global daily and global monthly-cost buckets. -/
theorem post_consume_frame (cfg : Config) (st : Store) (now : ℚ)
    (ip : String) (d : ℚ) :
    (∀ k, (post_consume cfg st now ip d).ip_hour k = st.ip_hour k) ∧
    (post_consume cfg st now ip d).global_hour = st.global_hour ∧
    (post_consume cfg st now ip d).global_month_req = st.global_month_req ∧
    (∀ k, k ≠ ip → (post_consume cfg st now ip d).ip_day k = st.ip_day k) ∧
    ipDayCountOf (post_consume cfg st now ip d) ip =
      (peekIpDay st now ip).count ∧
    (post_consume cfg st now ip d).global_day.count =
      (peekGlobalDay st now).count ∧
    (post_consume cfg st now ip d).ip_day ip =
      some { peekIpDay st now ip with
             active_sec := (peekIpDay st now ip).active_sec + d } ∧
    (post_consume cfg st now ip d).global_day =
      { peekGlobalDay st now with
        active_sec := (peekGlobalDay st now).active_sec + d
        cost := (peekGlobalDay st now).cost + d * cfg.cost_per_sec } ∧
    (post_consume cfg st now ip d).global_month_cost =
      { peekGlobalMonthCost st now with
        cost := (peekGlobalMonthCost st now).cost + d * cfg.cost_per_sec } := by
  rw [post_consume_eq]
  refine ⟨fun k => rfl, rfl, rfl, ?_, ?_, rfl, ?_, rfl, rfl⟩
  · intro k hk
    simp [postConsumeStore, updMap, hk]
  · simp [postConsumeStore, ipDayCountOf, updMap]
  · simp [postConsumeStore, updMap]

/-- C10 witness: another client's daily bucket is untouched by a concrete
`post_consume` call. -/
theorem post_consume_frame_witness :
    ("5.6.7.8" ≠ "1.2.3.4") ∧
    (post_consume defaultConfig (initStore 0) 0 "1.2.3.4" 2).ip_day "5.6.7.8" =
      (initStore 0).ip_day "5.6.7.8" :=
  ⟨by decide,
   (post_consume_frame defaultConfig (initStore 0) 0 "1.2.3.4" 2).2.2.2.1
     "5.6.7.8" (by decide)⟩

/-- C4: every bucket accessor, at a time at or past the bucket's
`reset_at`, replaces the bucket by a fresh one with all accumulated fields
zero and `reset_at = now +` the window length (3600, 86400 or 30 * 86400
seconds), independent of the previously accumulated values; before
`reset_at` the access returns the bucket and leaves the store unchanged. -/
theorem bucket_rollover_fresh_or_unchanged (st : Store) (now : ℚ)
    (ip : String) :
    (∀ b, st.ip_hour ip = some b →
      (now ≥ b.reset_at →
        getIpHourBucket st now ip =
          (⟨0, now + 3600⟩,
           { st with ip_hour := updMap st.ip_hour ip ⟨0, now + 3600⟩ })) ∧
      (now < b.reset_at → getIpHourBucket st now ip = (b, st))) ∧
    (∀ b, st.ip_day ip = some b →
      (now ≥ b.reset_at →
        getIpDayBucket st now ip =
          (⟨0, 0, now + 86400⟩,
           { st with ip_day := updMap st.ip_day ip ⟨0, 0, now + 86400⟩ })) ∧
      (now < b.reset_at → getIpDayBucket st now ip = (b, st))) ∧
    ((now ≥ st.global_hour.reset_at →
        getGlobalHour st now =
          (⟨0, now + 3600⟩, { st with global_hour := ⟨0, now + 3600⟩ })) ∧
     (now < st.global_hour.reset_at →
        getGlobalHour st now = (st.global_hour, st))) ∧
    ((now ≥ st.global_day.reset_at →
        getGlobalDay st now =
          (⟨0, 0, 0, now + 86400⟩,
           { st with global_day := ⟨0, 0, 0, now + 86400⟩ })) ∧
     (now < st.global_day.reset_at →
        getGlobalDay st now = (st.global_day, st))) ∧
    ((now ≥ st.global_month_req.reset_at →
        getGlobalMonthReq st now =
          (⟨0, now + 30 * 86400⟩,
           { st with global_month_req := ⟨0, now + 30 * 86400⟩ })) ∧
     (now < st.global_month_req.reset_at →
        getGlobalMonthReq st now = (st.global_month_req, st))) ∧
    ((now ≥ st.global_month_cost.reset_at →
        getGlobalMonthCost st now =
          (⟨0, now + 30 * 86400⟩,
           { st with global_month_cost := ⟨0, now + 30 * 86400⟩ })) ∧
     (now < st.global_month_cost.reset_at →
        getGlobalMonthCost st now = (st.global_month_cost, st))) := by
  refine ⟨?_, ?_, ⟨?_, ?_⟩, ⟨?_, ?_⟩, ⟨?_, ?_⟩, ⟨?_, ?_⟩⟩
  · intro b hb
    constructor
    · intro hr
      unfold getIpHourBucket
      rw [hb]
      dsimp only
      rw [if_pos hr]
    · intro hr
      unfold getIpHourBucket
      rw [hb]
      dsimp only
      rw [if_neg (not_le.mpr hr)]
  · intro b hb
    constructor
    · intro hr
      unfold getIpDayBucket
      rw [hb]
      dsimp only
      rw [if_pos hr]
    · intro hr
      unfold getIpDayBucket
      rw [hb]
      dsimp only
      rw [if_neg (not_le.mpr hr)]
  · intro hr
    unfold getGlobalHour
    rw [if_pos hr]
  · intro hr
    unfold getGlobalHour
    rw [if_neg (not_le.mpr hr)]
  · intro hr
    unfold getGlobalDay
    rw [if_pos hr]
  · intro hr
    unfold getGlobalDay
    rw [if_neg (not_le.mpr hr)]
  · intro hr
    unfold getGlobalMonthReq
    rw [if_pos hr]
  · intro hr
    unfold getGlobalMonthReq
    rw [if_neg (not_le.mpr hr)]
  · intro hr
    unfold getGlobalMonthCost
    rw [if_pos hr]
  · intro hr
    unfold getGlobalMonthCost
    rw [if_neg (not_le.mpr hr)]

/-- C4 witness: on a fresh store (global hourly `reset_at = 3600`), an
access at time 3600 replaces the bucket with a fresh zeroed one expiring
at 7200, while an access at time 100 leaves everything unchanged. -/
theorem bucket_rollover_fresh_or_unchanged_witness :
    ((3600 : ℚ) ≥ (initStore 0).global_hour.reset_at ∧
      getGlobalHour (initStore 0) 3600 =
        (⟨0, 3600 + 3600⟩,
         { initStore 0 with global_hour := ⟨0, 3600 + 3600⟩ })) ∧
    ((100 : ℚ) < (initStore 0).global_hour.reset_at ∧
      getGlobalHour (initStore 0) 100 =
        ((initStore 0).global_hour, initStore 0)) :=
  ⟨⟨by norm_num [initStore],
    (bucket_rollover_fresh_or_unchanged (initStore 0) 3600 "1.2.3.4").2.2.1.1
      (by norm_num [initStore])⟩,
   ⟨by norm_num [initStore],
    (bucket_rollover_fresh_or_unchanged (initStore 0) 100 "1.2.3.4").2.2.1.2
      (by norm_num [initStore])⟩⟩

-- ----- the session-cap reason is distinct from every other reason -----
-- (distinguished by the character at index 8 of the message)

theorem string_data_append (s t : String) : (s ++ t).data = s.data ++ t.data :=
  rfl

theorem get8_append2 (l1 a l2 : String) (h : 8 < l1.data.length) :
    ((l1 ++ a) ++ l2).data[8]? = l1.data[8]? := by
  have h1 : 8 < (l1.data ++ a.data).length := by
    rw [List.length_append]
    omega
  calc ((l1 ++ a) ++ l2).data[8]?
      = ((l1.data ++ a.data) ++ l2.data)[8]? := rfl
    _ = (l1.data ++ a.data)[8]? := List.getElem?_append_left h1
    _ = l1.data[8]? := List.getElem?_append_left h

theorem get8_append3 (l1 a l2 w : String) (h : 8 < l1.data.length) :
    (((l1 ++ a) ++ l2) ++ w).data[8]? = l1.data[8]? := by
  have h1 : 8 < (l1.data ++ a.data).length := by
    rw [List.length_append]
    omega
  have h2 : 8 < ((l1.data ++ a.data) ++ l2.data).length := by
    rw [List.length_append, List.length_append]
    omega
  calc (((l1 ++ a) ++ l2) ++ w).data[8]?
      = (((l1.data ++ a.data) ++ l2.data) ++ w.data)[8]? := rfl
    _ = ((l1.data ++ a.data) ++ l2.data)[8]? := List.getElem?_append_left h2
    _ = (l1.data ++ a.data)[8]? := List.getElem?_append_left h1
    _ = l1.data[8]? := List.getElem?_append_left h

theorem sessionCapMsg_get8 (n : ℕ) : (sessionCapMsg n).data[8]? = some 'r' := by
  unfold sessionCapMsg
  rw [get8_append2 _ _ _ (by decide)]
  decide

theorem sessionTimeMsg_get8 : sessionTimeMsg.data[8]? = some 't' := by
  decide

theorem ipHourlyMsg_get8 (a : ℕ) (w : String) :
    (ipHourlyMsg a w).data[8]? = some 'y' := by
  unfold ipHourlyMsg
  rw [get8_append3 _ _ _ _ (by decide)]
  decide

theorem ipDailyMsg_get8 (a : ℕ) (w : String) :
    (ipDailyMsg a w).data[8]? = some ' ' := by
  unfold ipDailyMsg
  rw [get8_append3 _ _ _ _ (by decide)]
  decide

theorem ipDailyActiveMsg_get8 (a : ℕ) (w : String) :
    (ipDailyActiveMsg a w).data[8]? = some ' ' := by
  unfold ipDailyActiveMsg
  rw [get8_append3 _ _ _ _ (by decide)]
  decide

theorem globalHourlyMsg_get8 (a : ℕ) (w : String) :
    (globalHourlyMsg a w).data[8]? = some 'o' := by
  unfold globalHourlyMsg
  rw [get8_append3 _ _ _ _ (by decide)]
  decide

theorem globalDailyMsg_get8 (a : ℕ) (w : String) :
    (globalDailyMsg a w).data[8]? = some 'a' := by
  unfold globalDailyMsg
  rw [get8_append3 _ _ _ _ (by decide)]
  decide

theorem globalDailyActiveMsg_get8 (a : ℕ) (w : String) :
    (globalDailyActiveMsg a w).data[8]? = some 'a' := by
  unfold globalDailyActiveMsg
  rw [get8_append3 _ _ _ _ (by decide)]
  decide

theorem globalDailyCostMsg_get8 (a : ℚ) (w : String) :
    (globalDailyCostMsg a w).data[8]? = some 'a' := by
  unfold globalDailyCostMsg
  rw [get8_append3 _ _ _ _ (by decide)]
  decide

theorem globalMonthlyMsg_get8 (a : ℕ) (w : String) :
    (globalMonthlyMsg a w).data[8]? = some 'o' := by
  unfold globalMonthlyMsg
  rw [get8_append3 _ _ _ _ (by decide)]
  decide

theorem globalMonthlyCostMsg_get8 (a : ℚ) (w : String) :
    (globalMonthlyCostMsg a w).data[8]? = some 'o' := by
  unfold globalMonthlyCostMsg
  rw [get8_append3 _ _ _ _ (by decide)]
  decide

theorem ne_sessionCapMsg_of_get8 {s : String} {ch : Char}
    (hs : s.data[8]? = some ch) (hch : ch ≠ 'r') (n : ℕ) :
    s ≠ sessionCapMsg n := by
  intro he
  rw [he, sessionCapMsg_get8 n] at hs
  injection hs with h
  exact hch h.symm

set_option maxHeartbeats 1600000 in
/-- With a session count strictly below the cap, no `pre_check` outcome
carries the session-request-cap reason. -/
theorem preCheckChecked_reason_ne_cap (cfg : Config) (st : Store) (now : ℚ)
    (ip : String) (c : ℤ) (t : ℚ)
    (hc : c < (cfg.per_session_max_req : ℤ)) :
    ((preCheckChecked cfg st now ip c t).1).2 ≠
      some (sessionCapMsg cfg.per_session_max_req) := by
  rw [preCheckChecked_eq_tree]
  unfold preCheckTree
  by_cases h1 : now - t > cfg.per_session_max_age
  · rw [if_pos h1]
    intro h
    exact ne_sessionCapMsg_of_get8 sessionTimeMsg_get8 (by decide) _
      (Option.some.inj h)
  rw [if_neg h1]
  by_cases h2 : c ≥ (cfg.per_session_max_req : ℤ)
  · exact absurd h2 (not_le.mpr hc)
  rw [if_neg h2]
  by_cases h3 : (peekIpHour st now ip).count ≥ cfg.per_ip_max_req_hour
  · rw [if_pos h3]
    intro h
    exact ne_sessionCapMsg_of_get8 (ipHourlyMsg_get8 _ _) (by decide) _
      (Option.some.inj h)
  rw [if_neg h3]
  by_cases h4 : (peekIpDay st now ip).count ≥ cfg.per_ip_max_req_day
  · rw [if_pos h4]
    intro h
    exact ne_sessionCapMsg_of_get8 (ipDailyMsg_get8 _ _) (by decide) _
      (Option.some.inj h)
  rw [if_neg h4]
  by_cases h5 : (peekIpDay st now ip).active_sec ≥
      (cfg.per_ip_max_active_sec_day : ℚ)
  · rw [if_pos h5]
    intro h
    exact ne_sessionCapMsg_of_get8 (ipDailyActiveMsg_get8 _ _) (by decide) _
      (Option.some.inj h)
  rw [if_neg h5]
  by_cases h6 : (peekGlobalHour st now).count ≥ cfg.global_max_req_hour
  · rw [if_pos h6]
    intro h
    exact ne_sessionCapMsg_of_get8 (globalHourlyMsg_get8 _ _) (by decide) _
      (Option.some.inj h)
  rw [if_neg h6]
  by_cases h7 : (peekGlobalDay st now).count ≥ cfg.global_max_req_day
  · rw [if_pos h7]
    intro h
    exact ne_sessionCapMsg_of_get8 (globalDailyMsg_get8 _ _) (by decide) _
      (Option.some.inj h)
  rw [if_neg h7]
  by_cases h8 : (peekGlobalDay st now).active_sec ≥
      (cfg.global_max_active_sec_day : ℚ)
  · rw [if_pos h8]
    intro h
    exact ne_sessionCapMsg_of_get8 (globalDailyActiveMsg_get8 _ _) (by decide) _
      (Option.some.inj h)
  rw [if_neg h8]
  by_cases h9 : (peekGlobalDay st now).cost ≥ cfg.daily_cost_limit
  · rw [if_pos h9]
    intro h
    exact ne_sessionCapMsg_of_get8 (globalDailyCostMsg_get8 _ _) (by decide) _
      (Option.some.inj h)
  rw [if_neg h9]
  by_cases h10 : (peekGlobalMonthReq st now).count ≥ cfg.global_max_req_month
  · rw [if_pos h10]
    intro h
    exact ne_sessionCapMsg_of_get8 (globalMonthlyMsg_get8 _ _) (by decide) _
      (Option.some.inj h)
  rw [if_neg h10]
  by_cases h11 : (peekGlobalMonthCost st now).cost ≥ cfg.monthly_cost_limit
  · rw [if_pos h11]
    intro h
    exact ne_sessionCapMsg_of_get8 (globalMonthlyCostMsg_get8 _ _) (by decide) _
      (Option.some.inj h)
  rw [if_neg h11]
  intro h
  exact Option.noConfusion h

/-- `pre_check` never writes the session's `count` and keeps a present
`started_at`, for an arbitrary (not necessarily well-typed) session. -/
theorem pre_check_session_fields (cfg : Config) (st : Store) (now : ℚ)
    (ip : String) (sess : SessionDict) :
    ∀ res st' s', pre_check cfg st now ip sess = .ok (res, st', s') →
      s'.count = sess.count ∧
      (∀ v, sess.started_at = some v → s'.started_at = some v) := by
  intro res st' s' h
  unfold pre_check at h
  rcases hci : pyInt (sess.count.getD (PyVal.int 0)) with _ | a
  · rcases hcf : pyFloat (sess.started_at.getD (PyVal.float now)) with _ | b <;>
      rw [hci, hcf] at h <;> exact absurd h (by simp)
  · rcases hcf : pyFloat (sess.started_at.getD (PyVal.float now)) with _ | b
    · rw [hci, hcf] at h
      exact absurd h (by simp)
    · rw [hci, hcf] at h
      dsimp only at h
      obtain ⟨_, _, h3⟩ := except_ok_inj h
      subst h3
      constructor
      · split <;> rfl
      · intro v hv
        split
        · simp [hv]
        · exact hv

/-- Run `pre_check` once per entry of `nows`, threading the store and the
session dict, collecting the results. A raised exception stops the run. -/
def runPreChecks (cfg : Config) (ip : String) :
    List ℚ → Store → SessionDict →
      Store × SessionDict × List (Bool × Option String)
  | [], st, s => (st, s, [])
  | now :: rest, st, s =>
    match pre_check cfg st now ip s with
    | .ok (res, st', s') =>
      let r := runPreChecks cfg ip rest st' s'
      (r.1, r.2.1, res :: r.2.2)
    | .error _ => (st, s, [])

theorem runPreChecks_no_cap_fire (cfg : Config) (ip : String) (c : ℤ)
    (hc : c < (cfg.per_session_max_req : ℤ)) :
    ∀ (nows : List ℚ) (st : Store) (t? : Option ℚ),
      (∃ u?, (runPreChecks cfg ip nows st (mkSession c t?)).2.1 =
          mkSession c u?) ∧
      (∀ r ∈ (runPreChecks cfg ip nows st (mkSession c t?)).2.2,
        r.2 ≠ some (sessionCapMsg cfg.per_session_max_req)) := by
  intro nows
  induction nows with
  | nil =>
    intro st t?
    refine ⟨⟨t?, rfl⟩, ?_⟩
    intro r hr
    simp [runPreChecks] at hr
  | cons now rest ih =>
    intro st t?
    have hcall := pre_check_mkSession cfg st now ip c t?
    simp only [runPreChecks, hcall]
    by_cases hb : (preCheckChecked cfg st now ip c (t?.getD now)).1.1 = true
    · rw [if_pos hb]
      obtain ⟨⟨u?, hu⟩, hr⟩ :=
        ih ((preCheckChecked cfg st now ip c (t?.getD now)).2)
          (some (t?.getD now))
      refine ⟨⟨u?, hu⟩, ?_⟩
      intro r hr2
      rw [List.mem_cons] at hr2
      rcases hr2 with rfl | hr2
      · exact preCheckChecked_reason_ne_cap cfg st now ip c (t?.getD now) hc
      · exact hr r hr2
    · rw [if_neg hb]
      obtain ⟨⟨u?, hu⟩, hr⟩ :=
        ih ((preCheckChecked cfg st now ip c (t?.getD now)).2) t?
      refine ⟨⟨u?, hu⟩, ?_⟩
      intro r hr2
      rw [List.mem_cons] at hr2
      rcases hr2 with rfl | hr2
      · exact preCheckChecked_reason_ne_cap cfg st now ip c (t?.getD now) hc
      · exact hr r hr2

/-- C9: `pre_check` never writes `session.count` and never modifies a
present `session.started_at`; consequently, a session whose count is below
the cap can be run through any number of repeated `pre_check` calls (with
no external increment) without the session-count predicate ever firing:
its count field stays the same and no returned reason is the session-cap
message. -/
theorem pre_check_session_count_framing (cfg : Config) (st : Store)
    (now : ℚ) (ip : String) (sess : SessionDict) :
    (∀ res st' s', pre_check cfg st now ip sess = .ok (res, st', s') →
      s'.count = sess.count ∧
      (∀ v, sess.started_at = some v → s'.started_at = some v)) ∧
    (∀ (c : ℤ) (t? : Option ℚ), c < (cfg.per_session_max_req : ℤ) →
      ∀ (nows : List ℚ) (st0 : Store),
        ((runPreChecks cfg ip nows st0 (mkSession c t?)).2.1).count =
          some (PyVal.int c) ∧
        (∀ r ∈ (runPreChecks cfg ip nows st0 (mkSession c t?)).2.2,
          r.2 ≠ some (sessionCapMsg cfg.per_session_max_req))) := by
  constructor
  · exact pre_check_session_fields cfg st now ip sess
  · intro c t? hc nows st0
    obtain ⟨⟨u?, hu⟩, hr⟩ := runPreChecks_no_cap_fire cfg ip c hc nows st0 t?
    exact ⟨by rw [hu]; rfl, hr⟩

/-- C9 witness: two repeated calls on a fresh session with count 0 leave
the count field at 0. -/
theorem pre_check_session_count_framing_witness :
    ((0 : ℤ) < (defaultConfig.per_session_max_req : ℤ)) ∧
    ((runPreChecks defaultConfig "1.2.3.4" [0, 1] (initStore 0)
        (mkSession 0 none)).2.1).count = some (PyVal.int 0) :=
  ⟨by decide,
   ((pre_check_session_count_framing defaultConfig (initStore 0) 0 "1.2.3.4"
       (mkSession 0 none)).2 0 none (by decide) [0, 1] (initStore 0)).1⟩

-- ----- the `_infer` handler of `app.py` -----

/-- The backend-call outcomes distinguished by `_infer` in `src/app.py`:
a 429 throttle passthrough, a success, and the four except-branches. -/
inductive BackendOutcome where
  | throttled429
  | success
  | connectionFailed
  | timedOut
  | httpFailed
  | otherFailed
deriving DecidableEq

/-- One limiter interaction of the `_infer` handler. -/
inductive LimiterEvent where
  | preCheckEv (allowed : Bool)
  | postConsumeEv (duration : ℚ)
deriving DecidableEq

/-- The sequence of limiter calls `_infer` makes (`src/app.py`), given the
admission decision, the backend outcome and the elapsed time: on a denial
the handler returns at once; in every branch past the gate it calls
`post_consume` exactly once with the clamped elapsed time. -/
def inferEvents (allowed : Bool) (outcome : BackendOutcome) (elapsed : ℚ) :
    List LimiterEvent :=
  if allowed then
    match outcome with
    | .throttled429 => [.preCheckEv true, .postConsumeEv (max 0 elapsed)]
    | .success => [.preCheckEv true, .postConsumeEv (max 0 elapsed)]
    | .connectionFailed => [.preCheckEv true, .postConsumeEv (max 0 elapsed)]
    | .timedOut => [.preCheckEv true, .postConsumeEv (max 0 elapsed)]
    | .httpFailed => [.preCheckEv true, .postConsumeEv (max 0 elapsed)]
    | .otherFailed => [.preCheckEv true, .postConsumeEv (max 0 elapsed)]
  else [.preCheckEv false]

/-- C5 counterexample: after a `pre_check` denial, `_infer`'s event trace
contains no `post_consume` call of any duration — the handler returns
without recording the attempt. -/
theorem infer_denied_no_post_consume :
    ¬ ∃ d, LimiterEvent.postConsumeEv d ∈
        inferEvents false BackendOutcome.success 0 := by
  rintro ⟨d, hd⟩
  simp [inferEvents] at hd

/-- C5 amended: after a `pre_check` denial the `_infer` handler returns
immediately without invoking `post_consume`; `post_consume` is invoked
exactly once, with the clamped elapsed duration, in every branch where
`pre_check` allowed (success, backend 429, connection error, timeout, HTTP
error, other error). -/
theorem infer_denial_skips_post_consume (outcome : BackendOutcome)
    (elapsed : ℚ) :
    inferEvents false outcome elapsed = [.preCheckEv false] ∧
    inferEvents true outcome elapsed =
      [.preCheckEv true, .postConsumeEv (max 0 elapsed)] := by
  constructor
  · rfl
  · cases outcome <;> rfl

-- ----- C8: absent vs malformed session fields -----

/-- C8 counterexample: a session whose `count` holds the non-numeric
string "abc" makes `pre_check` raise (modelled `.error`) instead of being
replaced by a default. -/
theorem pre_check_malformed_raises :
    pre_check defaultConfig (initStore 0) 0 "1.2.3.4"
      ⟨some (PyVal.str "abc"), none⟩ = .error () := rfl

/-- C8 amended: `pre_check` substitutes the defaults `count = 0` and
`started_at = now` for absent session fields and returns an ordinary
result, and likewise returns an ordinary result whenever the present
fields convert; only a present non-convertible field makes it raise. -/
theorem pre_check_defaults_absent_fields (cfg : Config) (st : Store)
    (now : ℚ) (ip : String) :
    (pre_check cfg st now ip ⟨none, none⟩ =
      .ok ((preCheckChecked cfg st now ip 0 now).1,
           (preCheckChecked cfg st now ip 0 now).2,
           if (preCheckChecked cfg st now ip 0 now).1.1 then
             (⟨none, some (PyVal.float now)⟩ : SessionDict)
           else ⟨none, none⟩)) ∧
    (∀ (sess : SessionDict) (a : ℤ) (b : ℚ),
      pyInt (sess.count.getD (PyVal.int 0)) = some a →
      pyFloat (sess.started_at.getD (PyVal.float now)) = some b →
      pre_check cfg st now ip sess =
        .ok ((preCheckChecked cfg st now ip a b).1,
             (preCheckChecked cfg st now ip a b).2,
             if (preCheckChecked cfg st now ip a b).1.1 then
               { sess with started_at := some (sess.started_at.getD (PyVal.float now)) }
             else sess)) := by
  constructor
  · rfl
  · intro sess a b ha hb
    unfold pre_check
    rw [ha, hb]

/-- C8 witness: a session with a numeric count and no `started_at`
converts, so the call returns an ordinary result. -/
theorem pre_check_defaults_absent_fields_witness :
    (pyInt ((⟨some (PyVal.int 2), none⟩ : SessionDict).count.getD
        (PyVal.int 0)) = some 2 ∧
     pyFloat ((⟨some (PyVal.int 2), none⟩ : SessionDict).started_at.getD
        (PyVal.float 0)) = some 0) ∧
    pre_check defaultConfig (initStore 0) 0 "1.2.3.4"
        ⟨some (PyVal.int 2), none⟩ =
      .ok ((preCheckChecked defaultConfig (initStore 0) 0 "1.2.3.4" 2 0).1,
           (preCheckChecked defaultConfig (initStore 0) 0 "1.2.3.4" 2 0).2,
           if (preCheckChecked defaultConfig (initStore 0) 0 "1.2.3.4" 2 0).1.1
           then (⟨some (PyVal.int 2), some (PyVal.float 0)⟩ : SessionDict)
           else ⟨some (PyVal.int 2), none⟩) :=
  ⟨⟨rfl, rfl⟩,
   (pre_check_defaults_absent_fields defaultConfig (initStore 0) 0
      "1.2.3.4").2 ⟨some (PyVal.int 2), none⟩ 2 0 rfl rfl⟩

end AstroRL
